import Mathlib

/-!
Verification of the AI-Document-Analyzer core against its specification.

This file shallowly embeds the data model and the algorithms of
`src/infotems_comparator.py`, `src/enhanced_extractor.py` and
`src/extraction_validator.py` as executable Lean definitions and proves
properties about them.

Modelling conventions, used throughout:
- Python dicts are association lists `List (String × α)`; `alookup` models
  `dict.get(key)`, `dictInsert` models `d[key] = v` (replace in place or
  append), `dictUpdate` models `dict.update`.
- Python string truthiness (`if s:`) is `s ≠ ""`; dict truthiness is
  non-emptiness; an integer id is truthy iff it is nonzero.
- Confidences and other numbers are modelled as rationals `ℚ` (the claims
  under study are about the algorithms, not float rounding).
- Fallible external calls (the InfoTems client) are modelled as functions
  returning `Except String α`; a raised exception is the `.error` case.
- Extracted JSON values are modelled in their `str()` form.
-/

/-- Python `dict.get(key)` over an association list (first binding wins;
Python dicts have unique keys). -/
def alookup {α : Type} (k : String) : List (String × α) → Option α
  | [] => none
  | (k', v) :: rest => if k' = k then some v else alookup k rest

/-- Python `d[key] = v`: replace the binding in place if the key exists,
else append at the end (Python dict insertion-order semantics). -/
def dictInsert {α : Type} (k : String) (v : α) : List (String × α) → List (String × α)
  | [] => [(k, v)]
  | (k', v') :: rest => if k' = k then (k, v) :: rest else (k', v') :: dictInsert k v rest

/-- Python `base.update(upd)`. -/
def dictUpdate {α : Type} (base upd : List (String × α)) : List (String × α) :=
  upd.foldl (fun acc kv => dictInsert kv.1 kv.2 acc) base

/-- Python `d.pop(key, default)`: the removal part (the looked-up value is
read with `alookup` separately). -/
def eraseKey {α : Type} (k : String) : List (String × α) → List (String × α)
  | [] => []
  | (k', v) :: rest => if k' = k then rest else (k', v) :: eraseKey k rest

/-- Truthiness of a Python string. -/
def strTruthy (s : String) : Bool := s ≠ ""

/-- Truthiness of an optional Python string (`None` and `""` are falsy). -/
def optStrTruthy : Option String → Bool
  | some s => s ≠ ""
  | none => false

/-- Truthiness of an optional integer id (`None` and `0` are falsy). -/
def idTruthy : Option Nat → Bool
  | some n => n ≠ 0
  | none => false

/-- Truthiness of an optional dict (`None` and `{}` are falsy). -/
def dictTruthy {α : Type} : Option (List (String × α)) → Bool
  | some l => !l.isEmpty
  | none => false

/-- Python `d.get(k, "")` for string-valued dicts. -/
def lookupS (d : List (String × String)) (k : String) : String := (alookup k d).getD ""

/-- Python `a or b` on strings: the first truthy operand, else the last. -/
def pyOr (a b : String) : String := if a ≠ "" then a else b

/-- A Python boolean rendered as a string (relationship kwargs carry
`bool(...)` values; values are modelled in their `str()` form). -/
def pyBoolStr (b : Bool) : String := if b then "True" else "False"


/-! ## Enums (`infotems_comparator.py`) -/

/-- `ChangeType` — type of change to a field. -/
inductive ChangeType where
  | NEW
  | MODIFIED
  | UNCHANGED
  | REMOVED
deriving DecidableEq, Repr

/-- The wire value of a `ChangeType` (its Python enum `.value`). -/
def ChangeType.val : ChangeType → String
  | .NEW => "new"
  | .MODIFIED => "modified"
  | .UNCHANGED => "unchanged"
  | .REMOVED => "removed"

/-- `ChangeType(value)` — the enum constructor used by `FieldChange.from_dict`;
an unknown value raises, modelled as `none`. -/
def ChangeType.ofVal (s : String) : Option ChangeType :=
  if s = "new" then some .NEW
  else if s = "modified" then some .MODIFIED
  else if s = "unchanged" then some .UNCHANGED
  else if s = "removed" then some .REMOVED
  else none

/-- `FamilyMemberAction` — action to take for a family member. -/
inductive FamilyMemberAction where
  | SKIP
  | LINK_EXISTING
  | CREATE_NEW
  | UPDATE_LINKED
deriving DecidableEq, Repr

/-- The wire value of a `FamilyMemberAction`. -/
def FamilyMemberAction.val : FamilyMemberAction → String
  | .SKIP => "skip"
  | .LINK_EXISTING => "link_existing"
  | .CREATE_NEW => "create_new"
  | .UPDATE_LINKED => "update_linked"

/-- `FamilyMemberAction(value)`; unknown values raise, modelled as `none`. -/
def FamilyMemberAction.ofVal (s : String) : Option FamilyMemberAction :=
  if s = "skip" then some .SKIP
  else if s = "link_existing" then some .LINK_EXISTING
  else if s = "create_new" then some .CREATE_NEW
  else if s = "update_linked" then some .UPDATE_LINKED
  else none

/-- `HistoryAction` — action for history records. -/
inductive HistoryAction where
  | SAVE_AS_RECORDS
  | SAVE_TO_NOTES
  | SKIP
deriving DecidableEq, Repr

/-- The wire value of a `HistoryAction`. -/
def HistoryAction.val : HistoryAction → String
  | .SAVE_AS_RECORDS => "save_as_records"
  | .SAVE_TO_NOTES => "save_to_notes"
  | .SKIP => "skip"

/-- `HistoryAction(value)`; unknown values raise, modelled as `none`. -/
def HistoryAction.ofVal (s : String) : Option HistoryAction :=
  if s = "save_as_records" then some .SAVE_AS_RECORDS
  else if s = "save_to_notes" then some .SAVE_TO_NOTES
  else if s = "skip" then some .SKIP
  else none


/-! ## Data classes (`infotems_comparator.py`) -/

/-- `FieldChange` — a proposed change to a single field. -/
structure FieldChange where
  field_key : String
  field_label : String
  current_value : Option String
  new_value : Option String
  confidence : ℚ
  change_type : ChangeType
  infotems_field : Option String := none
  is_biographic : Bool := false
  approved : Bool := true
  edited_value : Option String := none
deriving DecidableEq, Repr

/-- `FieldChange.has_change` — `change_type in (NEW, MODIFIED)`. -/
def FieldChange.has_change (c : FieldChange) : Bool :=
  c.change_type == ChangeType.NEW || c.change_type == ChangeType.MODIFIED

/-- `FieldChange.final_value` — the edited value when present, else the new
value. -/
def FieldChange.final_value (c : FieldChange) : Option String :=
  match c.edited_value with
  | some e => some e
  | none => c.new_value

/-- The serialized form of a `FieldChange` (`asdict` with the enum replaced
by its wire value). -/
structure FieldChangeDict where
  field_key : String
  field_label : String
  current_value : Option String
  new_value : Option String
  confidence : ℚ
  change_type : String
  infotems_field : Option String
  is_biographic : Bool
  approved : Bool
  edited_value : Option String
deriving DecidableEq, Repr

/-- `FieldChange.to_dict`. -/
def FieldChange.to_dict (c : FieldChange) : FieldChangeDict :=
  { field_key := c.field_key
    field_label := c.field_label
    current_value := c.current_value
    new_value := c.new_value
    confidence := c.confidence
    change_type := c.change_type.val
    infotems_field := c.infotems_field
    is_biographic := c.is_biographic
    approved := c.approved
    edited_value := c.edited_value }

/-- `FieldChange.from_dict` — rebuilds the enum with `ChangeType(value)`
then calls the dataclass constructor; an unknown enum value raises. -/
def FieldChange.from_dict (d : FieldChangeDict) : Option FieldChange :=
  match ChangeType.ofVal d.change_type with
  | some ct => some
      { field_key := d.field_key
        field_label := d.field_label
        current_value := d.current_value
        new_value := d.new_value
        confidence := d.confidence
        change_type := ct
        infotems_field := d.infotems_field
        is_biographic := d.is_biographic
        approved := d.approved
        edited_value := d.edited_value }
  | none => none

/-- `FamilyMember` — a family member extracted from a questionnaire.
`extracted_data` / `edited_data` values are modelled in their `str()` form;
`search_results` entries are the matched-contact dicts. -/
structure FamilyMember where
  relationship : String
  extracted_data : List (String × String) := []
  confidence : ℚ := 0
  matched_contact_id : Option Nat := none
  matched_contact_name : Option String := none
  match_confidence : ℚ := 0
  match_method : Option String := none
  search_results : List (List (String × String)) := []
  action : FamilyMemberAction := .SKIP
  field_changes : List FieldChange := []
  edited_data : List (String × String) := []
deriving DecidableEq, Repr

/-- `FamilyMember.display_name`. -/
def FamilyMember.display_name (fm : FamilyMember) : String :=
  let data := if fm.edited_data.isEmpty then fm.extracted_data else fm.edited_data
  let first := lookupS data "first_name"
  let last := lookupS data "last_name"
  if strTruthy first && strTruthy last then first ++ " " ++ last
  else "Unknown " ++ fm.relationship

/-- `FamilyMember.final_data` — extracted data overlaid with edits. -/
def FamilyMember.final_data (fm : FamilyMember) : List (String × String) :=
  dictUpdate fm.extracted_data fm.edited_data

/-- `HistoryRecord` — a single history record. -/
structure HistoryRecord where
  record_type : String
  data : List (String × String) := []
  confidence : ℚ := 0
  is_current : Bool := false
  edited_data : List (String × String) := []
deriving DecidableEq, Repr

/-- `HistoryRecord.final_data`. -/
def HistoryRecord.final_data (r : HistoryRecord) : List (String × String) :=
  dictUpdate r.data r.edited_data

/-- `HistorySet` — all history records of one type plus the chosen action. -/
structure HistorySet where
  history_type : String
  records : List HistoryRecord := []
  action : HistoryAction := .SAVE_AS_RECORDS
deriving DecidableEq, Repr

/-- `HistorySet.RECORD_SUPPORTED_TYPES`. -/
def RECORD_SUPPORTED_TYPES : List String := ["address", "employment", "education", "travel"]

/-- `HistorySet.supports_records`. -/
def HistorySet.supports_records (hs : HistorySet) : Bool :=
  RECORD_SUPPORTED_TYPES.contains hs.history_type

/-- One entry of the `HISTORY_TYPES` configuration table. The table itself
is imported from `config.py` but is not defined anywhere under `src/`
(missing repository code), so every function that consults it takes the
table as a parameter. -/
structure HistoryTypeInfo where
  display_name : Option String := none
  note_category : Option String := none
deriving DecidableEq, Repr

/-- `HistorySet.display_name` — `HISTORY_TYPES.get(t, dict()).get(s, t)`. -/
def historyDisplayName (HT : List (String × HistoryTypeInfo)) (ty : String) : String :=
  match alookup ty HT with
  | some info => info.display_name.getD ty
  | none => ty

/-- `ChangeSet` — the complete set of proposed changes for one document.
`created_at` (a `datetime.now()` timestamp string) is an ordinary field of
the model. -/
structure ChangeSet where
  contact_id : Option Nat := none
  contact_name : String := ""
  a_number : String := ""
  biographic_id : Option Nat := none
  document_type : String := ""
  questionnaire_type : Option String := none
  source_file : String := ""
  extraction_confidence : ℚ := 0
  changes : List FieldChange := []
  family_members : List FamilyMember := []
  history : List (String × HistorySet) := []
  other_info : List (String × String) := []
  errors : List String := []
  created_at : String := ""
deriving DecidableEq, Repr


/-! ## Parsed oracle replies (`enhanced_extractor.py`) -/

/-- One field entry of a parsed extraction, `{"value": ..., "confidence": ...}`.
Entries are modelled as non-empty dict values; a field whose dict is empty
or whose value is not a dict is skipped by the source at each use site just
like a missing key, so it is modelled as absent. -/
structure FieldData where
  value : Option String := none
  confidence : Option ℚ := none
deriving DecidableEq, Repr

/-- One family-member entry of a parsed extraction. `verified` is the
optional `"verified"` key of the verification reply (missing defaults to
true at the use site). -/
structure FamilyDict where
  relationship : Option String := none
  data : List (String × String) := []
  confidence : Option ℚ := none
  verified : Option Bool := none
  reason : Option String := none
deriving DecidableEq, Repr

/-- One history entry of a parsed extraction. -/
structure HistEntry where
  data : List (String × String) := []
  confidence : Option ℚ := none
  is_current : Option Bool := none
deriving DecidableEq, Repr

/-- The decoded JSON object of an oracle reply: the keys read by
`_parse_extraction_response`, each optional/defaulted exactly as there. -/
structure Payload where
  confidence : Option ℚ := none
  fields : List (String × FieldData) := []
  family_members : List FamilyDict := []
  history : List (String × List HistEntry) := []
  other : List (String × String) := []
  corrections : List String := []
deriving DecidableEq, Repr

/-- The result dict of `_parse_extraction_response`. -/
structure Extraction where
  confidence : ℚ := 0
  fields : List (String × FieldData) := []
  family_members : List FamilyDict := []
  history : List (String × List HistEntry) := []
  other : List (String × String) := []
  raw_response : Option String := none
  corrections : List String := []
deriving DecidableEq, Repr

/-- `_parse_extraction_response`. Locating the outermost brace pair and
`json.loads` are abstracted into the argument: `some p` is a reply whose
embedded object decoded to `p`; `none` is an unparseable reply (the decode
error records the raw reply under `other`; the no-braces case differs only
in not recording it). Either failure yields the empty result with
confidence 0. -/
def parse_extraction_response (resp : Option Payload) (raw : String) : Extraction :=
  match resp with
  | some p =>
      { confidence := p.confidence.getD (4/5)
        fields := p.fields
        family_members := p.family_members
        history := p.history
        other := p.other
        corrections := p.corrections }
  | none => { raw_response := some raw }

/-- The per-key candidate scan of `_find_consensus`: fold over the strategy
results tracking `(best_value, best_confidence)`, starting from
`(None, 0)`, replacing only on strictly greater confidence (a missing
confidence defaults to 0.5). -/
def bestGo (cands : List FieldData) (acc : Option FieldData) (c : ℚ) : Option FieldData :=
  match cands with
  | [] => acc
  | fd :: rest =>
      if c < fd.confidence.getD (1/2) then bestGo rest (some fd) (fd.confidence.getD (1/2))
      else bestGo rest acc c

/-- The candidates for one field key, in strategy order. -/
def fieldCands (results_list : List Extraction) (key : String) : List FieldData :=
  results_list.filterMap (fun r => alookup key r.fields)

/-- The winning candidate for one field key in `_find_consensus`. -/
def consensusBest (results_list : List Extraction) (key : String) : Option FieldData :=
  bestGo (fieldCands results_list key) none 0

/-- `all_field_keys` of `_find_consensus`. The source collects the keys in
a Python `set` whose iteration order is unspecified; the model keeps them
in first-seen order (consensus fields are only ever read by key, so the
order is irrelevant). -/
def allFieldKeys (results_list : List Extraction) : List String :=
  results_list.foldl
    (fun acc r => r.fields.foldl
      (fun acc kv => if acc.contains kv.1 then acc else acc ++ [kv.1]) acc) []

/-- The `consensus["fields"]` dict built by `_find_consensus`. -/
def consensusFields (results_list : List Extraction) : List (String × FieldData) :=
  (allFieldKeys results_list).foldl
    (fun acc key =>
      match consensusBest results_list key with
      | some fd => dictInsert key fd acc
      | none => acc) []

/-- The family-member merge of `_find_consensus`: union keeping the first
occurrence of each (relationship, first name, last name) triple. -/
def consensusFamily (results_list : List Extraction) : List FamilyDict :=
  (results_list.foldl
    (fun (acc : List FamilyDict × List (String × String × String)) r =>
      r.family_members.foldl
        (fun acc fm =>
          let k := (fm.relationship.getD "",
                    lookupS fm.data "first_name",
                    lookupS fm.data "last_name")
          if acc.2.contains k then acc else (acc.1 ++ [fm], acc.2 ++ [k])) acc)
    ([], [])).1

/-- The history merge of `_find_consensus`: concatenate per type. -/
def consensusHistory (results_list : List Extraction) : List (String × List HistEntry) :=
  results_list.foldl
    (fun acc r => r.history.foldl
      (fun acc kv =>
        match alookup kv.1 acc with
        | some existing => dictInsert kv.1 (existing ++ kv.2) acc
        | none => acc ++ [(kv.1, kv.2)]) acc) []

/-- `_find_consensus`. A single strategy result is returned unchanged; the
source is only ever called with two strategies. -/
def find_consensus (results_list : List Extraction) : Extraction :=
  match results_list with
  | [r] => r
  | _ =>
      { confidence := (results_list.map (fun r => r.confidence)).sum / results_list.length
        fields := consensusFields results_list
        family_members := consensusFamily results_list
        history := consensusHistory results_list }

/-- The stored confidence of a field as read by the merge step of
`_reextract_low_confidence` (missing field or missing confidence read as 0). -/
def readConf (fields : List (String × FieldData)) (key : String) : ℚ :=
  match alookup key fields with
  | some fd => fd.confidence.getD 0
  | none => 0

/-- The merge loop of `_reextract_low_confidence` (lines 690-700): walk the
re-extracted fields and replace a stored field only when the new confidence
is strictly greater than the stored one. The source also skips re-extracted
entries that are not dicts; those are simply absent from the model. -/
def reextractMergeGo (acc : List (String × FieldData)) :
    List (String × FieldData) → List (String × FieldData)
  | [] => acc
  | kv :: rest =>
      reextractMergeGo
        (if readConf acc kv.1 < kv.2.confidence.getD 0 then dictInsert kv.1 kv.2 acc else acc)
        rest

/-- The field map after the confidence-gated retry merge. -/
def reextractMerge (old retried : List (String × FieldData)) : List (String × FieldData) :=
  reextractMergeGo old retried

/-- `_verify_family_members` (lines 710-785): an empty input short-circuits
to `[]`; otherwise the returned list is the verification reply's
`family_members` list filtered down to the entries whose `verified` flag is
not false (missing defaults to true) and whose `data` dict is non-empty.
The prompt built from the input influences only the oracle; the reply is
the second argument. -/
def verify_family_members (family_members : List FamilyDict) (reply : Extraction) :
    List FamilyDict :=
  if family_members.isEmpty then []
  else reply.family_members.filter (fun fm => fm.verified.getD true && !fm.data.isEmpty)


/-! ## Validator (`extraction_validator.py`) -/

/-- `ValidationSeverity`. -/
inductive ValidationSeverity where
  | ERROR
  | WARNING
  | INFO
deriving DecidableEq, Repr

/-- `ValidationError` — one validation issue. -/
structure VIssue where
  rule_name : String
  severity : ValidationSeverity
  message : String
  field_key : Option String := none
  current_value : Option String := none
  suggested_value : Option String := none
deriving DecidableEq, Repr

/-- A character matched by the regex class backslash-d. -/
def isDigitChar (c : Char) : Bool := '0' ≤ c && c ≤ '9'

/-- An ASCII whitespace character as stripped by Python `str.strip()`. -/
def isPyWhitespace (c : Char) : Bool :=
  c = ' ' || c = '\t' || c = '\n' || c = '\r' || c = '\x0b' || c = '\x0c'

/-- `str(value).strip().replace(s, e).replace(h, e)` of `_validate_a_number`
(line 200): trim surrounding whitespace, then drop every space and hyphen. -/
def stripANumber (s : String) : String :=
  String.mk ((((s.toList.dropWhile isPyWhitespace).reverse.dropWhile
    isPyWhitespace).reverse).filter (fun c => c ≠ ' ' && c ≠ '-'))

/-- The anchored pattern `A?` followed by 8 or 9 digits, case-insensitive
(`A_NUMBER_PATTERN`); returns the digit group on a match. -/
def matchANumber (s : String) : Option String :=
  let cs := s.toList
  let ds := match cs with
    | 'A' :: rest => rest
    | 'a' :: rest => rest
    | _ => cs
  if ds.all isDigitChar && (ds.length = 8 || ds.length = 9) then some (String.mk ds)
  else none

/-- Python `str.zfill(n)` on an unsigned string. -/
def zfill (n : Nat) (s : String) : String :=
  if s.length < n then String.mk (List.replicate (n - s.length) '0') ++ s else s

/-- `_validate_a_number` (lines 190-222), returning the issues it appends
(the ERROR goes to `result.errors`, the INFO to `result.info`). A missing
or falsy field/value contributes nothing. -/
def validate_a_number (fields : List (String × FieldData)) : List VIssue :=
  match alookup "a_number" fields with
  | none => []
  | some fd =>
      match fd.value with
      | none => []
      | some v =>
          if v = "" then []
          else
            let value := stripANumber v
            match matchANumber value with
            | none =>
                [{ rule_name := "invalid_a_number"
                   severity := .ERROR
                   message := "Invalid A-number format: \x27" ++ value ++
                     "\x27. Expected 8-9 digits."
                   field_key := some "a_number"
                   current_value := some value }]
            | some digits =>
                if digits.length = 8 then
                  [{ rule_name := "a_number_format"
                     severity := .INFO
                     message := "A-number has 8 digits, may need leading zero"
                     field_key := some "a_number"
                     current_value := some value
                     suggested_value := some ("A" ++ zfill 9 digits) }]
                else []


/-! ## Diff engine (`infotems_comparator.py`, `_compare_primary_fields`) -/

/-- One field definition from the document-type configuration
(`config.py`): the keys read by `_compare_primary_fields`. `ftype` models
the `type` entry consulted by `_normalize_value`. -/
structure FieldDef where
  key : String
  label : String
  infotems_field : Option String := none
  biographic : Bool := false
  ftype : Option String := none
deriving DecidableEq, Repr

/-- `_compare_primary_fields` (lines 679-724), written as recursion over
the field definitions (the source loop appends one `FieldChange` per
definition whose extracted value is truthy). `_normalize_value` — date
canonicalisation via `strptime`, digit stripping for phone and a_number
keys, lowercasing otherwise — is passed in as the parameter `norm`; every
theorem below holds for an arbitrary normalisation function. -/
def comparePrimaryFields (norm : Option String → FieldDef → String)
    (primary_fields : List FieldDef)
    (fields : List (String × FieldData))
    (existing_contact : Option (List (String × String)))
    (biographic : Option (List (String × String))) : List FieldChange :=
  match primary_fields with
  | [] => []
  | fd :: rest =>
      let extracted := (alookup fd.key fields).getD {}
      let new_value := extracted.value
      let confidence := extracted.confidence.getD 0
      (if !optStrTruthy new_value then []
       else
        let itf := fd.infotems_field
        let current_value : Option String :=
          if optStrTruthy itf then
            let k := itf.getD ""
            if fd.biographic && dictTruthy biographic then alookup k (biographic.getD [])
            else if dictTruthy existing_contact then alookup k (existing_contact.getD [])
            else none
          else none
        let current_norm := norm current_value fd
        let new_norm := norm new_value fd
        let change_type :=
          if !optStrTruthy current_value then ChangeType.NEW
          else if current_norm ≠ new_norm then ChangeType.MODIFIED
          else ChangeType.UNCHANGED
        [{ field_key := fd.key
           field_label := fd.label
           current_value := if optStrTruthy current_value then current_value else none
           new_value := if optStrTruthy new_value then new_value else none
           confidence := confidence
           change_type := change_type
           infotems_field := itf
           is_biographic := fd.biographic
           approved := change_type ≠ ChangeType.UNCHANGED }]) ++
      comparePrimaryFields norm rest fields existing_contact biographic


/-! ## Apply engine (`infotems_comparator.py`, lines 830-1448) -/

/-- The InfoTems hybrid client, the only gateway to the Record Store. Each
method either returns a value or raises (`Except.error message`). Methods
whose Python result is a dict read for truthiness and an `Id` key are
modelled as `Option (Option Nat)`: the outer option is the truthiness of
the returned dict, the inner one its `Id` entry. -/
structure Client where
  create_contact : Option String → Option String → List (String × Option String) →
    Except String Nat
  update_contact : Nat → List (String × Option String) → Except String Unit
  create_contact_biographic : Nat → List (String × Option String) →
    Except String (Option (Option Nat))
  update_contact_biographic : Nat → List (String × Option String) → Except String Unit
  add_contact_relative : Nat → Nat → String → List (String × String) →
    Except String (Option (Option Nat))
  create_note : String → String → Nat → String → Except String Nat
  create_address : Nat → List (String × String) → Except String (Option (Option Nat))
  create_employment : Nat → List (String × String) → Except String (Option (Option Nat))
  create_education : Nat → List (String × String) → Except String (Option (Option Nat))
  create_travel_history : Nat → List (String × String) → Except String (Option (Option Nat))

/-- `results["primary_contact"]`. -/
structure PrimaryResult where
  contact_id : Option Nat := none
  created : Bool := false
  updated : Bool := false
  fields : List String := []
deriving DecidableEq, Repr

/-- One entry of `results["family_members"]`. -/
structure FmResult where
  relationship : String
  name : String
  action : String
  contact_id : Option Nat := none
  relationship_id : Option Nat := none
  success : Bool := false
  error : Option String := none
deriving DecidableEq, Repr

/-- One entry of `results["history_notes"]` (the record path fills
`created_ids`, the note path fills `note_id`). -/
structure HistResult where
  htype : String
  record_count : Nat
  created_ids : List Nat := []
  note_id : Option Nat := none
  success : Bool := false
  error : Option String := none
deriving DecidableEq, Repr

/-- The `results` dict of `apply_changes`. -/
structure ApplyResults where
  success : Bool := false
  primary_contact : PrimaryResult := {}
  family_members : List FmResult := []
  history_notes : List HistResult := []
  errors : List String := []
deriving DecidableEq, Repr

/-- `RELATIONSHIP_MAP` of `_apply_family_changes`. -/
def RELATIONSHIP_MAP : List (String × String) :=
  [("spouse", "Spouse"), ("child", "Child"), ("father", "Father"),
   ("mother", "Mother"), ("sibling", "Sibling"), ("prior_spouse", "Spouse"),
   ("son", "Son"), ("daughter", "Daughter"), ("brother", "Brother"),
   ("sister", "Sister"), ("parent", "Parent")]

/-- `RELATIONSHIP_MAP.get(relationship, o)` with default Other. -/
def relTypeFor (rel : String) : String := (alookup rel RELATIONSHIP_MAP).getD "Other"

/-- `_build_biographic_fields` (lines 1146-1188). -/
def build_biographic_fields (data : List (String × String)) : List (String × String) :=
  let f : List (String × String) := []
  let f := if strTruthy (lookupS data "a_number") then
    dictInsert "AlienNumber" (lookupS data "a_number") f else f
  let f := if strTruthy (lookupS data "date_of_birth") then
    dictInsert "BirthDate" (lookupS data "date_of_birth") f else f
  let f := if strTruthy (lookupS data "city_of_birth") then
    dictInsert "BirthCity" (lookupS data "city_of_birth") f else f
  let f := if strTruthy (lookupS data "state_of_birth") then
    dictInsert "BirthState" (lookupS data "state_of_birth") f else f
  let f := if strTruthy (lookupS data "country_of_birth") then
    dictInsert "BirthCountry" (lookupS data "country_of_birth") f else f
  let f := if strTruthy (lookupS data "gender") then
    dictInsert "Gender" (lookupS data "gender") f else f
  let f := if strTruthy (lookupS data "citizenship") then
    dictInsert "Citizenship1Country" (lookupS data "citizenship") f else f
  let f := if strTruthy (lookupS data "ethnicity") then
    dictInsert "Ethnicity" (lookupS data "ethnicity") f else f
  let f := if strTruthy (lookupS data "race") then
    dictInsert "Race" (lookupS data "race") f else f
  let f := if strTruthy (lookupS data "immigration_status") then
    dictInsert "CurrentImmigrationStatus" (lookupS data "immigration_status") f else f
  let f := if strTruthy (lookupS data "date_of_entry") then
    dictInsert "DateOfLastEntryToUSA" (lookupS data "date_of_entry") f else f
  let f := if strTruthy (lookupS data "ssn") then
    dictInsert "SSN" (lookupS data "ssn") f else f
  f

/-- Split a place string on commas and strip each part. -/
def splitParts (s : String) : List String := (s.splitOn ",").map String.trim

/-- `_build_relationship_kwargs` (lines 1088-1144). Flag values (`bool(x)`)
are rendered with `pyBoolStr`; `is not None` is key presence. -/
def build_relationship_kwargs (fm : FamilyMember) (data : List (String × String)) :
    List (String × String) :=
  let kw : List (String × String) := []
  let kw := if strTruthy (lookupS data "date_of_marriage") then
    dictInsert "start_date" (lookupS data "date_of_marriage") kw else kw
  let kw := if strTruthy (lookupS data "date_marriage_ended") then
    dictInsert "end_date" (lookupS data "date_marriage_ended") kw else kw
  let kw := if strTruthy (lookupS data "place_of_marriage") then
    let parts := splitParts (lookupS data "place_of_marriage")
    let kw := if parts.length ≥ 1 then dictInsert "start_city" (parts.getD 0 "") kw else kw
    let kw := if parts.length ≥ 2 then dictInsert "start_state" (parts.getD 1 "") kw else kw
    if parts.length ≥ 3 then dictInsert "start_country" (parts.getD 2 "") kw else kw
  else kw
  let kw := if strTruthy (lookupS data "place_marriage_ended") then
    let parts := splitParts (lookupS data "place_marriage_ended")
    let kw := if parts.length ≥ 1 then dictInsert "end_city" (parts.getD 0 "") kw else kw
    let kw := if parts.length ≥ 2 then dictInsert "end_state" (parts.getD 1 "") kw else kw
    if parts.length ≥ 3 then dictInsert "end_country" (parts.getD 2 "") kw else kw
  else kw
  let kw := match alookup "include_in_application" data with
    | some v => dictInsert "are_filing_immigration_benefit_together" (pyBoolStr (strTruthy v)) kw
    | none => kw
  let kw := match alookup "resides_with_applicant" data with
    | some v =>
        dictInsert "are_household_members" (pyBoolStr (strTruthy v))
          (dictInsert "does_related_contact_reside_with_primary_contact"
            (pyBoolStr (strTruthy v)) kw)
    | none => kw
  let kw := match alookup "will_accompany" data with
    | some v => dictInsert "will_related_contact_accompany" (pyBoolStr (strTruthy v)) kw
    | none => kw
  let kw := match alookup "will_immigrate_later" data with
    | some v => dictInsert "will_related_contact_immigrate_later" (pyBoolStr (strTruthy v)) kw
    | none => kw
  let kw := match alookup "is_step" data with
    | some v => dictInsert "is_step" (pyBoolStr (strTruthy v)) kw
    | none => kw
  let kw := match alookup "is_adopted" data with
    | some v => dictInsert "is_related_contact_adopted" (pyBoolStr (strTruthy v)) kw
    | none => kw
  if fm.relationship = "prior_spouse" && (alookup "end_date" kw).isNone then
    dictInsert "are_estranged" "True" kw
  else kw

/-- The update dicts gathered by `_apply_primary_changes` (lines 888-899):
`(contact_updates, biographic_updates)` from the approved, has-change,
field-mapped subset of the change list. -/
def primaryUpdates (cs : ChangeSet) :
    List (String × Option String) × List (String × Option String) :=
  cs.changes.foldl
    (fun (acc : List (String × Option String) × List (String × Option String)) ch =>
      if !(ch.approved && ch.has_change && optStrTruthy ch.infotems_field) then acc
      else
        let v := ch.final_value
        if ch.is_biographic then (acc.1, dictInsert (ch.infotems_field.getD "") v acc.2)
        else (dictInsert (ch.infotems_field.getD "") v acc.1, acc.2)) ([], [])

/-- The contact-creation step of `_apply_primary_changes` (lines 905-923):
create the contact if none is matched, raising when the popped name fields
are missing; returns the possibly-updated change set, results, and the
remaining contact updates (emptied after a creation). -/
def primaryCreate (cl : Client) (cs0 : ChangeSet) (r0 : ApplyResults)
    (contact_updates : List (String × Option String)) :
    Except String (ChangeSet × ApplyResults × List (String × Option String)) :=
  if !idTruthy cs0.contact_id then
    let first_name := (alookup "FirstName" contact_updates).getD (some "")
    let last_name := (alookup "LastName" contact_updates).getD (some "")
    let cu := eraseKey "LastName" (eraseKey "FirstName" contact_updates)
    if !optStrTruthy first_name || !optStrTruthy last_name then
      .error "Cannot create contact without First and Last name"
    else
      match cl.create_contact first_name last_name cu with
      | .error e => .error e
      | .ok new_id =>
          .ok ({ cs0 with contact_id := some new_id },
               { r0 with primary_contact :=
                   { r0.primary_contact with contact_id := some new_id, created := true } },
               [])
  else .ok (cs0, r0, contact_updates)

/-- The contact-update step of `_apply_primary_changes` (lines 925-930). -/
def primaryUpdate (cl : Client) (cs1 : ChangeSet) (r1 : ApplyResults)
    (contact_updates : List (String × Option String)) : Except String ApplyResults :=
  if !contact_updates.isEmpty then
    match cl.update_contact (cs1.contact_id.getD 0) contact_updates with
    | .error e => .error e
    | .ok _ =>
        .ok { r1 with primary_contact :=
                { r1.primary_contact with
                    updated := true
                    fields := r1.primary_contact.fields ++ contact_updates.map Prod.fst } }
  else .ok r1

/-- The biographic step of `_apply_primary_changes` (lines 932-945):
update the existing biographic record or create one, back-filling the new
biographic id when the creation result is truthy. -/
def primaryBio (cl : Client) (cs1 : ChangeSet)
    (biographic_updates : List (String × Option String)) : Except String ChangeSet :=
  if idTruthy cs1.biographic_id then
    match cl.update_contact_biographic (cs1.biographic_id.getD 0) biographic_updates with
    | .error e => .error e
    | .ok _ => .ok cs1
  else
    match cl.create_contact_biographic (cs1.contact_id.getD 0) biographic_updates with
    | .error e => .error e
    | .ok res =>
        match res with
        | some idOpt => .ok { cs1 with biographic_id := idOpt }
        | none => .ok cs1

/-- `_apply_primary_changes` (lines 882-948). Raised exceptions propagate
as `Except.error`; on success the possibly-updated change set and results
are returned. -/
def applyPrimaryChanges (cl : Client) (cs0 : ChangeSet) (r0 : ApplyResults) :
    Except String (ChangeSet × ApplyResults) :=
  let upd := primaryUpdates cs0
  if upd.1.isEmpty && upd.2.isEmpty then .ok (cs0, r0)
  else
    match primaryCreate cl cs0 r0 upd.1 with
    | .error e => .error e
    | .ok (cs1, r1, contact_updates) =>
        match primaryUpdate cl cs1 r1 contact_updates with
        | .error e => .error e
        | .ok r2 =>
            if !upd.2.isEmpty then
              match primaryBio cl cs1 upd.2 with
              | .error e => .error e
              | .ok cs2 =>
                  .ok (cs2,
                       { r2 with primary_contact :=
                           { r2.primary_contact with fields :=
                               r2.primary_contact.fields ++ upd.2.map Prod.fst } })
            else .ok (cs1, r2)

/-- The per-member body of `_apply_family_changes` (lines 980-1086): runs
one family member under its own exception guard, returning the member
result and the error strings appended to `results["errors"]`. -/
def applyFamilyMember (cl : Client) (cs : ChangeSet) (fm : FamilyMember) :
    FmResult × List String :=
  let base : FmResult :=
    { relationship := fm.relationship, name := fm.display_name, action := fm.action.val }
  match fm.action with
  | .SKIP => ({ base with success := true }, [])
  | .CREATE_NEW =>
      let data := fm.final_data
      let contact_fields : List (String × Option String) :=
        (if strTruthy (lookupS data "middle_name") then
          [("MiddleName", some (lookupS data "middle_name"))] else []) ++
        (if strTruthy (lookupS data "maiden_name") then
          [("MaidenName", some (lookupS data "maiden_name"))] else [])
      match cl.create_contact (some (lookupS data "first_name"))
          (some (lookupS data "last_name")) contact_fields with
      | .error e =>
          ({ base with error := some e },
           ["Family member " ++ fm.display_name ++ ": " ++ e])
      | .ok new_id =>
          let base := { base with contact_id := some new_id }
          let bio_fields := build_biographic_fields data
          -- best-effort biographic creation: the outcome is swallowed
          -- (the source only logs the failure)
          let _bio := if !bio_fields.isEmpty && new_id ≠ 0 then
              some (cl.create_contact_biographic new_id
                (bio_fields.map (fun kv => (kv.1, some kv.2)))) else none
          if idTruthy cs.contact_id && new_id ≠ 0 then
            let rel_type := relTypeFor fm.relationship
            let kw := build_relationship_kwargs fm data
            match cl.add_contact_relative (cs.contact_id.getD 0) new_id rel_type kw with
            | .error e =>
                ({ base with error := some e },
                 ["Family member " ++ fm.display_name ++ ": " ++ e])
            | .ok rel_result =>
                let base := match rel_result with
                  | some idOpt => { base with relationship_id := idOpt }
                  | none => base
                ({ base with success := true }, [])
          else ({ base with success := true }, [])
  | .LINK_EXISTING =>
      if idTruthy fm.matched_contact_id && idTruthy cs.contact_id then
        let rel_type := relTypeFor fm.relationship
        let data := fm.final_data
        let kw := build_relationship_kwargs fm data
        match cl.add_contact_relative (cs.contact_id.getD 0)
            (fm.matched_contact_id.getD 0) rel_type kw with
        | .error e =>
            ({ base with error := some e },
             ["Family member " ++ fm.display_name ++ ": " ++ e])
        | .ok rel_result =>
            let base := { base with contact_id := fm.matched_contact_id }
            let base := match rel_result with
              | some idOpt => { base with relationship_id := idOpt }
              | none => base
            ({ base with success := true }, [])
      else (base, [])
  | .UPDATE_LINKED =>
      if idTruthy fm.matched_contact_id then
        let data := fm.final_data
        let updates : List (String × Option String) :=
          (if strTruthy (lookupS data "first_name") then
            [("FirstName", some (lookupS data "first_name"))] else []) ++
          (if strTruthy (lookupS data "middle_name") then
            [("MiddleName", some (lookupS data "middle_name"))] else []) ++
          (if strTruthy (lookupS data "last_name") then
            [("LastName", some (lookupS data "last_name"))] else [])
        match (if updates.isEmpty then Except.ok ()
               else cl.update_contact (fm.matched_contact_id.getD 0) updates) with
        | .error e =>
            ({ base with error := some e },
             ["Family member " ++ fm.display_name ++ ": " ++ e])
        | .ok _ => ({ base with contact_id := fm.matched_contact_id, success := true }, [])
      else (base, [])

/-- `_apply_family_changes` (lines 950-1086): every family member is
processed in order, each under its own exception guard; its result entry is
always appended. -/
def applyFamilyChanges (cl : Client) (cs : ChangeSet) (r : ApplyResults) : ApplyResults :=
  cs.family_members.foldl
    (fun r fm =>
      let res := applyFamilyMember cl cs fm
      { r with
          family_members := r.family_members ++ [res.1]
          errors := r.errors ++ res.2 }) r


/-- `_create_address_record` (lines 1274-1296). The kwargs dict is built in
source order (`contact_id` is the separate first client argument); the
created id is `result.get(i)` when the result dict is truthy. -/
def createAddressRecord (cl : Client) (cid : Nat) (data : List (String × String)) :
    Except String (Option Nat) :=
  let kw : List (String × String) := []
  let kw := if strTruthy (lookupS data "street") || strTruthy (lookupS data "address_line1")
    then dictInsert "line1" (pyOr (lookupS data "street") (lookupS data "address_line1")) kw
    else kw
  let kw := if strTruthy (lookupS data "apt") || strTruthy (lookupS data "address_line2")
    then dictInsert "Line2" (pyOr (lookupS data "apt") (lookupS data "address_line2")) kw
    else kw
  let kw := if strTruthy (lookupS data "city") then
    dictInsert "city" (lookupS data "city") kw else kw
  let kw := if strTruthy (lookupS data "state") then
    dictInsert "state" (lookupS data "state") kw else kw
  let kw := if strTruthy (lookupS data "country") then
    dictInsert "country" (lookupS data "country") kw else kw
  let kw := if strTruthy (lookupS data "zip") || strTruthy (lookupS data "postal_code")
    then dictInsert "postal_zip_code" (pyOr (lookupS data "zip") (lookupS data "postal_code")) kw
    else kw
  let kw := if strTruthy (lookupS data "from_date") then
    dictInsert "StartDate" (lookupS data "from_date") kw else kw
  let kw := if strTruthy (lookupS data "to_date") then
    dictInsert "EndDate" (lookupS data "to_date") kw else kw
  match cl.create_address cid kw with
  | .error e => .error e
  | .ok res => .ok res.join

/-- `_create_employment_record` (lines 1298-1313); the second occupation
assignment overwrites the first. -/
def createEmploymentRecord (cl : Client) (cid : Nat) (data : List (String × String)) :
    Except String (Option Nat) :=
  let kw : List (String × String) := []
  let kw := if strTruthy (lookupS data "employer") || strTruthy (lookupS data "company_name")
    then dictInsert "occupation"
      (pyOr (pyOr (lookupS data "job_title") (lookupS data "position")) "Employee") kw
    else kw
  let kw := if strTruthy (lookupS data "job_title") || strTruthy (lookupS data "position")
    then dictInsert "occupation" (pyOr (lookupS data "job_title") (lookupS data "position")) kw
    else kw
  let kw := if strTruthy (lookupS data "from_date") then
    dictInsert "start_date" (lookupS data "from_date") kw else kw
  let kw := if strTruthy (lookupS data "to_date") then
    dictInsert "end_date" (lookupS data "to_date") kw else kw
  match cl.create_employment cid kw with
  | .error e => .error e
  | .ok res => .ok res.join

/-- `_create_education_record` (lines 1315-1333). -/
def createEducationRecord (cl : Client) (cid : Nat) (data : List (String × String)) :
    Except String (Option Nat) :=
  let kw : List (String × String) := []
  let kw := if strTruthy (lookupS data "school") || strTruthy (lookupS data "institution")
    then dictInsert "institution_name" (pyOr (lookupS data "school") (lookupS data "institution")) kw
    else kw
  let kw := if strTruthy (lookupS data "degree") || strTruthy (lookupS data "program")
    then dictInsert "program_of_study" (pyOr (lookupS data "degree") (lookupS data "program")) kw
    else kw
  let kw := if strTruthy (lookupS data "city") then
    dictInsert "city" (lookupS data "city") kw else kw
  let kw := if strTruthy (lookupS data "country") then
    dictInsert "country" (lookupS data "country") kw else kw
  let kw := if strTruthy (lookupS data "from_date") then
    dictInsert "start_date" (lookupS data "from_date") kw else kw
  let kw := if strTruthy (lookupS data "to_date") then
    dictInsert "end_date" (lookupS data "to_date") kw else kw
  match cl.create_education cid kw with
  | .error e => .error e
  | .ok res => .ok res.join

/-- `_create_travel_record` (lines 1335-1353). -/
def createTravelRecord (cl : Client) (cid : Nat) (data : List (String × String)) :
    Except String (Option Nat) :=
  let kw : List (String × String) := []
  let kw := if strTruthy (lookupS data "arrival_date") || strTruthy (lookupS data "entry_date")
    then dictInsert "arrival_date" (pyOr (lookupS data "arrival_date") (lookupS data "entry_date")) kw
    else kw
  let kw := if strTruthy (lookupS data "departure_date") || strTruthy (lookupS data "exit_date")
    then dictInsert "departure_date"
      (pyOr (lookupS data "departure_date") (lookupS data "exit_date")) kw
    else kw
  let kw := if strTruthy (lookupS data "port_of_entry") || strTruthy (lookupS data "arrival_city")
    then dictInsert "arrival_city"
      (pyOr (lookupS data "port_of_entry") (lookupS data "arrival_city")) kw
    else kw
  let kw := if strTruthy (lookupS data "arrival_state") then
    dictInsert "arrival_state" (lookupS data "arrival_state") kw else kw
  let kw := if strTruthy (lookupS data "status_on_entry") || strTruthy (lookupS data "immigration_status")
    then dictInsert "immigration_status_on_arrival"
      (pyOr (lookupS data "status_on_entry") (lookupS data "immigration_status")) kw
    else kw
  let kw := if strTruthy (lookupS data "countries_visited") then
    dictInsert "visited_countries" (lookupS data "countries_visited") kw else kw
  match cl.create_travel_history cid kw with
  | .error e => .error e
  | .ok res => .ok res.join

/-- The record loop of `_create_history_records` (lines 1249-1263): one
client call per record, collecting truthy created ids; the whole loop runs
inside one exception guard, so the first raising record stops the loop and
its message is what gets recorded. -/
def createHistoryRecordsLoop (cl : Client) (cid : Nat) (ty : String) :
    List HistoryRecord → List Nat → List Nat × Option String
  | [], ids => (ids, none)
  | rec :: rest, ids =>
      let data := rec.final_data
      let attempt : Except String (Option Nat) :=
        if ty = "address" then createAddressRecord cl cid data
        else if ty = "employment" then createEmploymentRecord cl cid data
        else if ty = "education" then createEducationRecord cl cid data
        else if ty = "travel" then createTravelRecord cl cid data
        else .ok none
      match attempt with
      | .error e => (ids, some e)
      | .ok record_id =>
          match record_id with
          | some rid =>
              if rid ≠ 0 then createHistoryRecordsLoop cl cid ty rest (ids ++ [rid])
              else createHistoryRecordsLoop cl cid ty rest ids
          | none => createHistoryRecordsLoop cl cid ty rest ids

/-- `_create_history_records` (lines 1238-1272): the per-set result entry
and the error strings appended to `results["errors"]`. -/
def createHistoryRecords (cl : Client) (cid : Nat) (hs : HistorySet) :
    HistResult × List String :=
  let run := createHistoryRecordsLoop cl cid hs.history_type hs.records []
  match run.2 with
  | none =>
      ({ htype := hs.history_type
         record_count := hs.records.length
         created_ids := run.1
         success := !run.1.isEmpty }, [])
  | some e =>
      ({ htype := hs.history_type
         record_count := hs.records.length
         created_ids := run.1
         success := false
         error := some e },
       ["History " ++ hs.history_type ++ ": " ++ e])

/-- The sort key of `_format_history_note` (line 1398):
`(not r.is_current, r.final_data.get(f, z))` with default "0000". -/
def histSortKey (r : HistoryRecord) : Bool × String :=
  (!r.is_current, (alookup "from_date" r.final_data).getD "0000")

/-- Python string `<`: lexicographic comparison by code point. -/
def charListLt : List Char → List Char → Bool
  | [], [] => false
  | [], _ :: _ => true
  | _ :: _, [] => false
  | a :: as, b :: bs => if a < b then true else if b < a then false else charListLt as bs

/-- Lexicographic `a ≥ b` on the sort key (false < true on booleans,
code-point order on strings, as in Python). -/
def histKeyGE (a b : Bool × String) : Bool :=
  (a.1 && !b.1) || (a.1 == b.1 && !(charListLt a.2.toList b.2.toList))

/-- Stable insertion for a descending sort: `x` goes before the first
element whose key is less than or equal to its own. -/
def insertDescStable (x : HistoryRecord) : List HistoryRecord → List HistoryRecord
  | [] => [x]
  | y :: ys => if histKeyGE (histSortKey x) (histSortKey y) then x :: y :: ys
               else y :: insertDescStable x ys

/-- Python `sorted(records, key, reverse=True)`: a stable descending sort
(equal keys keep their original relative order); stability makes the result
unique, so this insertion sort computes exactly the source's list. -/
def pySortedDesc : List HistoryRecord → List HistoryRecord
  | [] => []
  | x :: xs => insertDescStable x (pySortedDesc xs)

/-- The per-record lines of `_format_history_note` (lines 1402-1446),
for the record at 1-based position `i`. -/
def formatRecordLines (ty : String) (i : Nat) (rec : HistoryRecord) : List String :=
  let data := rec.final_data
  let l1 := if rec.is_current then toString i ++ ". CURRENT" else toString i ++ ". PREVIOUS"
  let tyLines :=
    if ty = "address" then
      let addr := lookupS data "address_line1"
      let addr := if strTruthy (lookupS data "address_line2") then
        addr ++ ", " ++ lookupS data "address_line2" else addr
      let city := lookupS data "city"
      let state := lookupS data "state"
      let zip_code := lookupS data "zip_code"
      let country := lookupS data "country"
      ["   " ++ addr, "   " ++ city ++ ", " ++ state ++ " " ++ zip_code] ++
      (if strTruthy country &&
          !(["US", "USA", "UNITED STATES"].contains country.toUpper) then
        ["   " ++ country] else [])
    else if ty = "employment" then
      ["   " ++ (alookup "employer_name" data).getD "Unknown",
       "   " ++ lookupS data "occupation"] ++
      (let addr := lookupS data "address_line1"
       let city := lookupS data "city"
       if strTruthy addr || strTruthy city then ["   " ++ addr ++ ", " ++ city] else [])
    else if ty = "education" then
      ["   " ++ (alookup "school_name" data).getD "Unknown" ++ " (" ++
        lookupS data "school_type" ++ ")"] ++
      (let city := lookupS data "city"
       let country := lookupS data "country"
       if strTruthy city || strTruthy country then ["   " ++ city ++ ", " ++ country] else [])
    else []
  let from_date := lookupS data "from_date"
  let to_date := (alookup "to_date" data).getD "Present"
  let dateLines := if strTruthy from_date then
    ["   From: " ++ from_date ++ " to " ++ to_date] else []
  [l1] ++ tyLines ++ dateLines ++ [""]

/-- The enumerated body of the note, starting at position `i`. -/
def formatRecordsFrom (ty : String) (i : Nat) : List HistoryRecord → List String
  | [] => []
  | rec :: rest => formatRecordLines ty i rec ++ formatRecordsFrom ty (i + 1) rest

/-- `_format_history_note` (lines 1387-1448); `today` is the
`datetime.now().strftime` stamp. -/
def format_history_note (HT : List (String × HistoryTypeInfo)) (today : String)
    (hs : HistorySet) : String :=
  let header := ["=== " ++ (historyDisplayName HT hs.history_type).toUpper ++ " ===",
                 "Updated: " ++ today, ""]
  let records := pySortedDesc hs.records
  String.intercalate "\n" (header ++ formatRecordsFrom hs.history_type 1 records)

/-- `_create_history_note` (lines 1355-1385). -/
def createHistoryNote (cl : Client) (HT : List (String × HistoryTypeInfo))
    (today : String) (cid : Nat) (hs : HistorySet) : HistResult × List String :=
  let content := format_history_note HT today hs
  let category := match alookup hs.history_type HT with
    | some i => i.note_category.getD "Case Status"
    | none => "Case Status"
  let subject := historyDisplayName HT hs.history_type ++ " - " ++ today
  match cl.create_note subject content cid category with
  | .error e =>
      ({ htype := hs.history_type
         record_count := hs.records.length
         error := some e },
       ["History " ++ hs.history_type ++ ": " ++ e])
  | .ok nid =>
      ({ htype := hs.history_type
         record_count := hs.records.length
         success := true
         note_id := some nid }, [])

/-- The loop body of `_apply_history_records`: skip the set when its
action is SKIP or it has no records, else route it to the record path
(supported type with the records action) or the note path, each under its
own exception guard. -/
def applyHistorySet (cl : Client) (HT : List (String × HistoryTypeInfo))
    (today : String) (cs : ChangeSet) (r : ApplyResults) (kv : String × HistorySet) :
    ApplyResults :=
  let hs := kv.2
  if hs.action == HistoryAction.SKIP then r
  else if hs.records.isEmpty then r
  else
    let res :=
      if hs.action == HistoryAction.SAVE_AS_RECORDS && hs.supports_records then
        createHistoryRecords cl (cs.contact_id.getD 0) hs
      else createHistoryNote cl HT today (cs.contact_id.getD 0) hs
    { r with
        history_notes := r.history_notes ++ [res.1]
        errors := r.errors ++ res.2 }

/-- `_apply_history_records` (lines 1210-1236): nothing happens without a
truthy contact id; otherwise every history set runs through
`applyHistorySet` in order. -/
def applyHistoryRecords (cl : Client) (HT : List (String × HistoryTypeInfo))
    (today : String) (cs : ChangeSet) (r : ApplyResults) : ApplyResults :=
  if !idTruthy cs.contact_id then r
  else cs.history.foldl (applyHistorySet cl HT today cs) r

/-- The initial `results` dict of `apply_changes` (lines 850-861). -/
def initApplyResults (cs : ChangeSet) : ApplyResults :=
  { primary_contact := { contact_id := cs.contact_id } }

/-- `apply_changes` (lines 830-880): all three phases run inside a single
exception guard. The family and history phases catch every client failure
per entity, so only the primary phase can raise; when it does, the
exception lands in `results["errors"]` as a bare message, `success` stays
false, and the family and history phases never run. On the non-raising
path `success` is set to true at the end. -/
def apply_changes (cl : Client) (HT : List (String × HistoryTypeInfo))
    (today : String) (cs : ChangeSet) : ApplyResults :=
  let r0 := initApplyResults cs
  match applyPrimaryChanges cl cs r0 with
  | .error e => { r0 with errors := r0.errors ++ [e] }
  | .ok (cs1, r1) =>
      let r2 := applyFamilyChanges cl cs1 r1
      let r3 := applyHistoryRecords cl HT today cs1 r2
      { r3 with success := true }


/-! ## Serialization of a ChangeSet (`to_dict`, lines 202-354) -/

/-- The serialized form of a `FamilyMember` (`FamilyMember.to_dict`, which
omits `search_results`). -/
structure FamilyMemberDict where
  relationship : String
  extracted_data : List (String × String)
  confidence : ℚ
  matched_contact_id : Option Nat
  matched_contact_name : Option String
  match_confidence : ℚ
  match_method : Option String
  action : String
  field_changes : List FieldChangeDict
  edited_data : List (String × String)
deriving DecidableEq, Repr

/-- `FamilyMember.to_dict` (lines 202-215). -/
def FamilyMember.to_dict (fm : FamilyMember) : FamilyMemberDict :=
  { relationship := fm.relationship
    extracted_data := fm.extracted_data
    confidence := fm.confidence
    matched_contact_id := fm.matched_contact_id
    matched_contact_name := fm.matched_contact_name
    match_confidence := fm.match_confidence
    match_method := fm.match_method
    action := fm.action.val
    field_changes := fm.field_changes.map FieldChange.to_dict
    edited_data := fm.edited_data }

/-- The serialized form of a `HistoryRecord`. -/
structure HistoryRecordDict where
  record_type : String
  data : List (String × String)
  confidence : ℚ
  is_current : Bool
  edited_data : List (String × String)
deriving DecidableEq, Repr

/-- `HistoryRecord.to_dict` (lines 234-242). -/
def HistoryRecord.to_dict (r : HistoryRecord) : HistoryRecordDict :=
  { record_type := r.record_type
    data := r.data
    confidence := r.confidence
    is_current := r.is_current
    edited_data := r.edited_data }

/-- The serialized form of a `HistorySet`. -/
structure HistorySetDict where
  history_type : String
  records : List HistoryRecordDict
  action : String
deriving DecidableEq, Repr

/-- `HistorySet.to_dict` (lines 265-271). -/
def HistorySet.to_dict (hs : HistorySet) : HistorySetDict :=
  { history_type := hs.history_type
    records := hs.records.map HistoryRecord.to_dict
    action := hs.action.val }

/-- The serialized form of a `ChangeSet`. -/
structure ChangeSetDict where
  contact_id : Option Nat
  contact_name : String
  a_number : String
  biographic_id : Option Nat
  document_type : String
  questionnaire_type : Option String
  source_file : String
  extraction_confidence : ℚ
  changes : List FieldChangeDict
  family_members : List FamilyMemberDict
  history : List (String × HistorySetDict)
  other_info : List (String × String)
  errors : List String
  created_at : String
deriving DecidableEq, Repr

/-- `ChangeSet.to_dict` (lines 337-354). -/
def ChangeSet.to_dict (cs : ChangeSet) : ChangeSetDict :=
  { contact_id := cs.contact_id
    contact_name := cs.contact_name
    a_number := cs.a_number
    biographic_id := cs.biographic_id
    document_type := cs.document_type
    questionnaire_type := cs.questionnaire_type
    source_file := cs.source_file
    extraction_confidence := cs.extraction_confidence
    changes := cs.changes.map FieldChange.to_dict
    family_members := cs.family_members.map FamilyMember.to_dict
    history := cs.history.map (fun kv => (kv.1, kv.2.to_dict))
    other_info := cs.other_info
    errors := cs.errors
    created_at := cs.created_at }

/-- Modelled from the spec: deserialization of a serialized `FamilyMember`.
The repository serializes a `ChangeSet` (`to_dict`) for resumable review
and provides `FieldChange.from_dict`, but the deserializers for
`FamilyMember`, `HistoryRecord`, `HistorySet` and `ChangeSet` themselves
are not under `src/`; per the spec the snapshot must round-trip losslessly,
so the missing deserializer rebuilds each component from the serialized
keys (the omitted `search_results` restart empty). -/
def FamilyMember.from_dict (d : FamilyMemberDict) : Option FamilyMember :=
  match FamilyMemberAction.ofVal d.action with
  | none => none
  | some a =>
      match d.field_changes.mapM FieldChange.from_dict with
      | none => none
      | some fcs => some
          { relationship := d.relationship
            extracted_data := d.extracted_data
            confidence := d.confidence
            matched_contact_id := d.matched_contact_id
            matched_contact_name := d.matched_contact_name
            match_confidence := d.match_confidence
            match_method := d.match_method
            search_results := []
            action := a
            field_changes := fcs
            edited_data := d.edited_data }

/-- Modelled from the spec: deserialization of a serialized
`HistoryRecord` (see `FamilyMember.from_dict`). -/
def HistoryRecord.from_dict (d : HistoryRecordDict) : HistoryRecord :=
  { record_type := d.record_type
    data := d.data
    confidence := d.confidence
    is_current := d.is_current
    edited_data := d.edited_data }

/-- Modelled from the spec: deserialization of a serialized `HistorySet`
(see `FamilyMember.from_dict`). -/
def HistorySet.from_dict (d : HistorySetDict) : Option HistorySet :=
  match HistoryAction.ofVal d.action with
  | none => none
  | some a => some
      { history_type := d.history_type
        records := d.records.map HistoryRecord.from_dict
        action := a }

/-- Modelled from the spec: deserialization of a serialized `ChangeSet`
(see `FamilyMember.from_dict`). -/
def ChangeSet.from_dict (d : ChangeSetDict) : Option ChangeSet :=
  match d.changes.mapM FieldChange.from_dict with
  | none => none
  | some chs =>
      match d.family_members.mapM FamilyMember.from_dict with
      | none => none
      | some fms =>
          match d.history.mapM (fun kv =>
              match HistorySet.from_dict kv.2 with
              | some hs => some (kv.1, hs)
              | none => none) with
          | none => none
          | some hist => some
              { contact_id := d.contact_id
                contact_name := d.contact_name
                a_number := d.a_number
                biographic_id := d.biographic_id
                document_type := d.document_type
                questionnaire_type := d.questionnaire_type
                source_file := d.source_file
                extraction_confidence := d.extraction_confidence
                changes := chs
                family_members := fms
                history := hist
                other_info := d.other_info
                errors := d.errors
                created_at := d.created_at }


/-! ## Concrete instances used by the theorems below -/

/-- A client whose every operation succeeds. -/
def clientOK : Client :=
  { create_contact := fun _ _ _ => .ok 1
    update_contact := fun _ _ => .ok ()
    create_contact_biographic := fun _ _ => .ok (some (some 2))
    update_contact_biographic := fun _ _ => .ok ()
    add_contact_relative := fun _ _ _ _ => .ok (some (some 3))
    create_note := fun _ _ _ _ => .ok 4
    create_address := fun _ _ => .ok (some (some 5))
    create_employment := fun _ _ => .ok (some (some 6))
    create_education := fun _ _ => .ok (some (some 7))
    create_travel_history := fun _ _ => .ok (some (some 8)) }

/-- An approved NEW change with no name fields (its target is a contact
field, so the primary phase has work to do). -/
def c1Change : FieldChange :=
  { field_key := "country_of_birth"
    field_label := "Country of Birth"
    current_value := none
    new_value := some "Honduras"
    confidence := 1
    change_type := .NEW
    infotems_field := some "BirthCountry" }

/-- A family member whose action is SKIP (a guaranteed-success entity). -/
def c1FamilyMember : FamilyMember := { relationship := "spouse" }

/-- A change set with no matched contact, one approved change lacking the
mandatory name fields, and one family member. -/
def c1ChangeSet : ChangeSet :=
  { changes := [c1Change], family_members := [c1FamilyMember] }

/-- A client that fails contact creation exactly for first name Bob. -/
def c1WitClient : Client :=
  { clientOK with create_contact := fun fn _ _ =>
      if fn = some "Bob" then .error "boom" else .ok 7 }

/-- A CREATE_NEW family member the witness client rejects. -/
def c1WitFmA : FamilyMember :=
  { relationship := "child"
    extracted_data := [("first_name", "Bob"), ("last_name", "Diaz")]
    action := .CREATE_NEW }

/-- A CREATE_NEW family member the witness client accepts. -/
def c1WitFmB : FamilyMember :=
  { relationship := "spouse"
    extracted_data := [("first_name", "Eva"), ("last_name", "Diaz")]
    action := .CREATE_NEW }

/-- A history set bound for the note path. -/
def c1WitHistSet : HistorySet :=
  { history_type := "medical"
    records := [{ record_type := "medical", data := [("from_date", "2019-05-01")] }]
    action := .SAVE_TO_NOTES }

/-- A change set with a matched contact, no primary changes, two family
members (the first of which will fail) and one history set. -/
def c1WitChangeSet : ChangeSet :=
  { contact_id := some 5
    family_members := [c1WitFmA, c1WitFmB]
    history := [("medical", c1WitHistSet)] }

/-- The single input family candidate of the C2 counterexample. -/
def c2Input : FamilyDict :=
  { relationship := some "spouse", data := [("first_name", "Ana"), ("last_name", "Lopez")] }

/-- A verification reply listing two verified members for a one-member input. -/
def c2Reply : Extraction :=
  { family_members :=
      [{ relationship := some "spouse", verified := some true
         data := [("first_name", "Ana"), ("last_name", "Lopez")] },
       { relationship := some "child", verified := some true
         data := [("first_name", "Leo"), ("last_name", "Lopez")] }] }

/-- A reply member marked unverified. -/
def c2WitBad : FamilyDict :=
  { relationship := some "sibling", verified := some false
    data := [("first_name", "Max"), ("last_name", "Lopez")] }

/-- A reply whose first member is unverified and second is verified. -/
def c2WitReply : Extraction :=
  { family_members :=
      [c2WitBad,
       { relationship := some "spouse", verified := some true
         data := [("first_name", "Ana"), ("last_name", "Lopez")] }] }

/-- A strategy result whose only candidate for key x has confidence 0. -/
def c5R1 : Extraction := { fields := [("x", { value := some "v", confidence := some 0 })] }

/-- A second strategy result with no fields. -/
def c5R2 : Extraction := { confidence := 0 }

/-- A strategy result carrying first_name at confidence 0.9. -/
def c5W1 : Extraction :=
  { confidence := 1
    fields := [("first_name", { value := some "Maria", confidence := some 1 })] }

/-- A second strategy result carrying first_name at confidence 0.6. -/
def c5W2 : Extraction :=
  { confidence := 0
    fields := [("first_name", { value := some "Mario", confidence := some 0 })] }

/-- Stored fields before a retry merge (used by the C6 witness). -/
def c6Old : List (String × FieldData) :=
  [("a_number", { value := some "A12345678", confidence := some 1 })]

/-- Re-extracted fields for the retry merge (one better, one worse). -/
def c6Retried : List (String × FieldData) :=
  [("a_number", { value := some "A12345679", confidence := some 0 })]

/-- An extraction whose a_number value carries the optional A prefix. -/
def c7Fields : List (String × FieldData) :=
  [("a_number", { value := some "A12345678" })]

/-- An extraction whose a_number value is 8 bare digits. -/
def c7WitFields : List (String × FieldData) :=
  [("a_number", { value := some "12345678" })]

/-- A current address record starting in 2020. -/
def c8Current : HistoryRecord :=
  { record_type := "address"
    data := [("address_line1", "1 Main St"), ("from_date", "2020-01-01")]
    is_current := true }

/-- A previous address record starting in 2010. -/
def c8Previous : HistoryRecord :=
  { record_type := "address"
    data := [("address_line1", "9 Old Rd"), ("from_date", "2010-01-01")]
    is_current := false }

/-- A history set holding the current record ahead of the previous one. -/
def c8HistSet : HistorySet :=
  { history_type := "address"
    records := [c8Current, c8Previous]
    action := .SAVE_TO_NOTES }

/-- A trivial normalisation function (witnesses instantiate the
normalisation parameter with it). -/
def normTrivial : Option String → FieldDef → String := fun v _ => (v.getD "").toLower

/-- A one-field schema for the diff-engine witnesses. -/
def c3Defs : List FieldDef :=
  [{ key := "first_name", label := "First Name", infotems_field := some "FirstName" }]

/-- Extracted fields holding first_name Maria at confidence 0.95. -/
def c3Fields : List (String × FieldData) :=
  [("first_name", { value := some "Maria", confidence := some 1 })]

/-- The FieldChange the diff engine produces from `c3Defs`/`c3Fields`
against no current record. -/
def c3Produced : FieldChange :=
  { field_key := "first_name"
    field_label := "First Name"
    current_value := none
    new_value := some "Maria"
    confidence := 1
    change_type := .NEW
    infotems_field := some "FirstName"
    is_biographic := false
    approved := true }

/-- A two-field schema for the C10 witness: one extracted, one absent. -/
def c10Defs : List FieldDef :=
  [{ key := "first_name", label := "First Name", infotems_field := some "FirstName" },
   { key := "last_name", label := "Last Name", infotems_field := some "LastName" }]


/-- An UNCHANGED field change whose proposed value coincides with the
current one (used by the C4 witness). -/
def c4Fc : FieldChange :=
  { field_key := "date_of_birth"
    field_label := "Date of Birth"
    current_value := some "1990-01-15"
    new_value := some "1990-01-15"
    confidence := 1
    change_type := .UNCHANGED
    approved := false }

/-- Extracted fields for the C10 witness: first_name present, last_name
absent. -/
def c10Fields : List (String × FieldData) :=
  [("first_name", { value := some "Maria", confidence := some 1 })]

/-- The FieldChange the diff engine produces from `c10Defs`/`c10Fields`
against no current record. -/
def c10Produced : FieldChange :=
  { field_key := "first_name"
    field_label := "First Name"
    current_value := none
    new_value := some "Maria"
    confidence := 1
    change_type := .NEW
    infotems_field := some "FirstName"
    is_biographic := false
    approved := true }


/-! ## Helper lemmas -/

theorem alookup_dictInsert_self {α : Type} (k : String) (v : α) (l : List (String × α)) :
    alookup k (dictInsert k v l) = some v := by
  induction l with
  | nil => simp [dictInsert, alookup]
  | cons kv rest ih =>
      by_cases h : kv.1 = k
      · simp [dictInsert, alookup, h]
      · simp [dictInsert, alookup, h, ih]

theorem alookup_dictInsert_ne {α : Type} (k k' : String) (v : α) (l : List (String × α))
    (h : k' ≠ k) : alookup k (dictInsert k' v l) = alookup k l := by
  induction l with
  | nil => simp [dictInsert, alookup, h]
  | cons kv rest ih =>
      by_cases hk : kv.1 = k'
      · simp [dictInsert, alookup, hk, h]
      · by_cases hk2 : kv.1 = k
        · simp [dictInsert, alookup, hk, hk2, Ne.symm h]
        · simp [dictInsert, alookup, hk, hk2, ih]

theorem mem_of_alookup_eq_some {α : Type} {k : String} {v : α} {l : List (String × α)}
    (h : alookup k l = some v) : (k, v) ∈ l := by
  induction l with
  | nil => simp [alookup] at h
  | cons kv rest ih =>
      obtain ⟨a, b⟩ := kv
      by_cases hk : a = k
      · subst hk
        simp [alookup] at h
        subst h
        exact List.mem_cons_self _ _
      · simp [alookup, hk] at h
        exact List.mem_cons_of_mem _ (ih h)

theorem readConf_congr {l1 l2 : List (String × FieldData)} {k : String}
    (h : alookup k l1 = alookup k l2) : readConf l1 k = readConf l2 k := by
  unfold readConf
  rw [h]

theorem reextractMergeGo_props (l : List (String × FieldData)) :
    ∀ (acc : List (String × FieldData)) (key : String),
      readConf acc key ≤ readConf (reextractMergeGo acc l) key ∧
      (alookup key (reextractMergeGo acc l) ≠ alookup key acc →
        readConf acc key < readConf (reextractMergeGo acc l) key) := by
  induction l with
  | nil =>
      intro acc key
      simp [reextractMergeGo]
  | cons kv rest ih =>
      intro acc key
      simp only [reextractMergeGo]
      by_cases hc : readConf acc kv.1 < kv.2.confidence.getD 0
      · rw [if_pos hc]
        have hstep1 : readConf acc key ≤ readConf (dictInsert kv.1 kv.2 acc) key := by
          by_cases hk : kv.1 = key
          · subst hk
            have : readConf (dictInsert kv.1 kv.2 acc) kv.1 = kv.2.confidence.getD 0 := by
              unfold readConf
              rw [alookup_dictInsert_self]
            rw [this]
            exact le_of_lt hc
          · have := alookup_dictInsert_ne key kv.1 kv.2 acc hk
            rw [readConf_congr this]
        have hstep2 : alookup key (dictInsert kv.1 kv.2 acc) ≠ alookup key acc →
            readConf acc key < readConf (dictInsert kv.1 kv.2 acc) key := by
          intro hne
          by_cases hk : kv.1 = key
          · subst hk
            have : readConf (dictInsert kv.1 kv.2 acc) kv.1 = kv.2.confidence.getD 0 := by
              unfold readConf
              rw [alookup_dictInsert_self]
            rw [this]
            exact hc
          · exact absurd (alookup_dictInsert_ne key kv.1 kv.2 acc hk) hne
        obtain ⟨ih1, ih2⟩ := ih (dictInsert kv.1 kv.2 acc) key
        constructor
        · exact le_trans hstep1 ih1
        · intro hne
          by_cases h2 : alookup key (dictInsert kv.1 kv.2 acc) = alookup key acc
          · have heq : readConf (dictInsert kv.1 kv.2 acc) key = readConf acc key :=
              readConf_congr h2
            have hne2 : alookup key (reextractMergeGo (dictInsert kv.1 kv.2 acc) rest) ≠
                alookup key (dictInsert kv.1 kv.2 acc) := by
              rw [h2]; exact hne
            have := ih2 hne2
            rw [heq] at this
            exact this
          · exact lt_of_lt_of_le (hstep2 h2) ih1
      · rw [if_neg hc]
        exact ih acc key

theorem bestGo_eq_none (cands : List FieldData) :
    ∀ (acc : Option FieldData) (c : ℚ), bestGo cands acc c = none →
      acc = none ∧ ∀ x ∈ cands, x.confidence.getD (1/2) ≤ c := by
  induction cands with
  | nil =>
      intro acc c h
      simp [bestGo] at h
      simp [h]
  | cons fd rest ih =>
      intro acc c h
      simp only [bestGo] at h
      by_cases hc : c < fd.confidence.getD (1/2)
      · rw [if_pos hc] at h
        obtain ⟨habs, _⟩ := ih (some fd) (fd.confidence.getD (1/2)) h
        exact absurd habs (by simp)
      · rw [if_neg hc] at h
        obtain ⟨h1, h2⟩ := ih acc c h
        refine ⟨h1, ?_⟩
        intro x hx
        rcases List.mem_cons.mp hx with hx | hx
        · subst hx
          exact le_of_not_lt hc
        · exact h2 x hx

theorem bestGo_eq_some (cands : List FieldData) :
    ∀ (acc : Option FieldData) (c : ℚ) (fd : FieldData), bestGo cands acc c = some fd →
      (∃ pre post, cands = pre ++ fd :: post ∧ c < fd.confidence.getD (1/2) ∧
        (∀ x ∈ pre, x.confidence.getD (1/2) < fd.confidence.getD (1/2)) ∧
        (∀ x ∈ post, x.confidence.getD (1/2) ≤ fd.confidence.getD (1/2))) ∨
      (acc = some fd ∧ ∀ x ∈ cands, x.confidence.getD (1/2) ≤ c) := by
  induction cands with
  | nil =>
      intro acc c fd h
      simp [bestGo] at h
      right
      simp [h]
  | cons y rest ih =>
      intro acc c fd h
      simp only [bestGo] at h
      by_cases hc : c < y.confidence.getD (1/2)
      · rw [if_pos hc] at h
        rcases ih (some y) (y.confidence.getD (1/2)) fd h with
          ⟨pre, post, hsplit, hgt, hpre, hpost⟩ | ⟨hacc, hall⟩
        · left
          refine ⟨y :: pre, post, by rw [hsplit]; simp, lt_trans hc hgt, ?_, hpost⟩
          intro x hx
          rcases List.mem_cons.mp hx with hx | hx
          · subst hx; exact hgt
          · exact hpre x hx
        · left
          have hy : y = fd := by injection hacc
          subst hy
          exact ⟨[], rest, rfl, hc, by simp, hall⟩
      · rw [if_neg hc] at h
        rcases ih acc c fd h with
          ⟨pre, post, hsplit, hgt, hpre, hpost⟩ | ⟨hacc, hall⟩
        · left
          refine ⟨y :: pre, post, by rw [hsplit]; simp, hgt, ?_, hpost⟩
          intro x hx
          rcases List.mem_cons.mp hx with hx | hx
          · subst hx
            exact lt_of_le_of_lt (le_of_not_lt hc) hgt
          · exact hpre x hx
        · right
          refine ⟨hacc, ?_⟩
          intro x hx
          rcases List.mem_cons.mp hx with hx | hx
          · subst hx; exact le_of_not_lt hc
          · exact hall x hx

theorem alookup_foldl_build (f : String → Option FieldData) (keys : List String) :
    ∀ (acc : List (String × FieldData)) (k : String),
      alookup k (keys.foldl (fun acc key =>
        match f key with
        | some fd => dictInsert key fd acc
        | none => acc) acc) =
      if k ∈ keys then
        (match f k with
         | some fd => some fd
         | none => alookup k acc)
      else alookup k acc := by
  induction keys with
  | nil =>
      intro acc k
      simp
  | cons key rest ih =>
      intro acc k
      simp only [List.foldl_cons]
      rw [ih]
      by_cases hk : key = k
      · subst hk
        by_cases hr : key ∈ rest
        · rw [if_pos hr, if_pos (List.mem_cons_self key rest)]
          cases hf : f key with
          | some fd => rfl
          | none => simp [hf]
        · rw [if_neg hr, if_pos (List.mem_cons_self key rest)]
          cases hf : f key with
          | some fd => simp [hf, alookup_dictInsert_self]
          | none => simp [hf]
      · have hstep : alookup k (match f key with
            | some fd => dictInsert key fd acc
            | none => acc) = alookup k acc := by
          cases hf : f key with
          | some fd => exact alookup_dictInsert_ne k key fd acc hk
          | none => rfl
        by_cases hr : k ∈ rest
        · rw [if_pos hr, if_pos (List.mem_cons_of_mem key hr)]
          cases hf : f k with
          | some fd => rfl
          | none => simpa using hstep
        · rw [if_neg hr,
              if_neg (by
                rw [List.mem_cons]
                rintro (h | h)
                · exact hk h.symm
                · exact hr h)]
          exact hstep

theorem mem_innerKeysFold_mono (entries : List (String × FieldData)) :
    ∀ (acc : List String) (k : String), k ∈ acc →
      k ∈ entries.foldl (fun acc kv =>
        if acc.contains kv.1 then acc else acc ++ [kv.1]) acc := by
  induction entries with
  | nil =>
      intro acc k h
      simpa using h
  | cons kv rest ih =>
      intro acc k h
      simp only [List.foldl_cons]
      by_cases hc : acc.contains kv.1
      · rw [if_pos hc]
        exact ih acc k h
      · rw [if_neg hc]
        exact ih _ k (List.mem_append_left _ h)

theorem mem_innerKeysFold (entries : List (String × FieldData)) :
    ∀ (acc : List String) (k : String), (∃ fd, (k, fd) ∈ entries) →
      k ∈ entries.foldl (fun acc kv =>
        if acc.contains kv.1 then acc else acc ++ [kv.1]) acc := by
  induction entries with
  | nil =>
      intro acc k h
      obtain ⟨fd, hfd⟩ := h
      simp at hfd
  | cons kv rest ih =>
      intro acc k h
      obtain ⟨fd, hfd⟩ := h
      simp only [List.foldl_cons]
      rcases List.mem_cons.mp hfd with hfd | hfd
      · have hk : kv.1 = k := by rw [← hfd]
        by_cases hc : acc.contains kv.1
        · rw [if_pos hc]
          apply mem_innerKeysFold_mono
          rw [← hk]
          simpa using hc
        · rw [if_neg hc]
          apply mem_innerKeysFold_mono
          apply List.mem_append_right
          rw [← hk]
          exact List.mem_singleton_self _
      · by_cases hc : acc.contains kv.1
        · rw [if_pos hc]
          exact ih acc k ⟨fd, hfd⟩
        · rw [if_neg hc]
          exact ih _ k ⟨fd, hfd⟩

theorem mem_outerKeysFold_mono (l : List Extraction) :
    ∀ (acc : List String) (k : String), k ∈ acc →
      k ∈ l.foldl (fun acc r => r.fields.foldl (fun acc kv =>
        if acc.contains kv.1 then acc else acc ++ [kv.1]) acc) acc := by
  induction l with
  | nil =>
      intro acc k h
      simpa using h
  | cons r rest ih =>
      intro acc k h
      simp only [List.foldl_cons]
      exact ih _ k (mem_innerKeysFold_mono r.fields acc k h)

theorem mem_allFieldKeys_of_lookup (l : List Extraction) :
    ∀ (acc : List String) (k : String) (r : Extraction) (fd : FieldData),
      r ∈ l → alookup k r.fields = some fd →
      k ∈ l.foldl (fun acc r => r.fields.foldl (fun acc kv =>
        if acc.contains kv.1 then acc else acc ++ [kv.1]) acc) acc := by
  induction l with
  | nil =>
      intro acc k r fd hr _
      simp at hr
  | cons r0 rest ih =>
      intro acc k r fd hr hfd
      simp only [List.foldl_cons]
      rcases List.mem_cons.mp hr with hr | hr
      · subst hr
        exact mem_outerKeysFold_mono rest _ k
          (mem_innerKeysFold r.fields acc k ⟨fd, mem_of_alookup_eq_some hfd⟩)
      · exact ih _ k r fd hr hfd

theorem fieldCands_nil_of_not_mem (l : List Extraction) (k : String)
    (h : k ∉ allFieldKeys l) : fieldCands l k = [] := by
  unfold fieldCands
  rw [List.filterMap_eq_nil_iff]
  intro r hr
  cases hfd : alookup k r.fields with
  | none => rfl
  | some fd => exact absurd (mem_allFieldKeys_of_lookup l [] k r fd hr hfd) h

theorem alookup_consensusFields (l : List Extraction) (k : String) :
    alookup k (consensusFields l) = consensusBest l k := by
  unfold consensusFields
  rw [alookup_foldl_build (consensusBest l) (allFieldKeys l) [] k]
  by_cases hc : k ∈ allFieldKeys l
  · rw [if_pos hc]
    cases hb : consensusBest l k with
    | some fd => rfl
    | none => simp [alookup]
  · rw [if_neg hc]
    have hnil : fieldCands l k = [] := fieldCands_nil_of_not_mem l k hc
    unfold consensusBest
    rw [hnil]
    simp [bestGo, alookup]

theorem applyFamilyChanges_foldl_spec (cl : Client) (cs : ChangeSet)
    (l : List FamilyMember) :
    ∀ (r : ApplyResults),
      (l.foldl (fun r fm =>
        let res := applyFamilyMember cl cs fm
        { r with
            family_members := r.family_members ++ [res.1]
            errors := r.errors ++ res.2 }) r).family_members =
        r.family_members ++ l.map (fun fm => (applyFamilyMember cl cs fm).1) ∧
      (l.foldl (fun r fm =>
        let res := applyFamilyMember cl cs fm
        { r with
            family_members := r.family_members ++ [res.1]
            errors := r.errors ++ res.2 }) r).history_notes = r.history_notes := by
  induction l with
  | nil =>
      intro r
      simp
  | cons fm rest ih =>
      intro r
      simp only [List.foldl_cons, List.map_cons]
      obtain ⟨ih1, ih2⟩ := ih
        { r with
            family_members := r.family_members ++ [(applyFamilyMember cl cs fm).1]
            errors := r.errors ++ (applyFamilyMember cl cs fm).2 }
      constructor
      · rw [ih1]
        simp
      · rw [ih2]

theorem applyFamilyChanges_spec (cl : Client) (cs : ChangeSet) (r : ApplyResults) :
    (applyFamilyChanges cl cs r).family_members =
      r.family_members ++ cs.family_members.map (fun fm => (applyFamilyMember cl cs fm).1) ∧
    (applyFamilyChanges cl cs r).history_notes = r.history_notes :=
  applyFamilyChanges_foldl_spec cl cs cs.family_members r

/-- The predicate selecting the history sets that get processed. -/
def histProcessed (kv : String × HistorySet) : Bool :=
  !(kv.2.action == HistoryAction.SKIP) && !kv.2.records.isEmpty

/-- The result entry `applyHistorySet` produces for a processed set. -/
def histRouted (cl : Client) (HT : List (String × HistoryTypeInfo))
    (today : String) (cs : ChangeSet) (kv : String × HistorySet) :
    HistResult × List String :=
  if kv.2.action == HistoryAction.SAVE_AS_RECORDS && kv.2.supports_records then
    createHistoryRecords cl (cs.contact_id.getD 0) kv.2
  else createHistoryNote cl HT today (cs.contact_id.getD 0) kv.2

theorem applyHistorySet_spec (cl : Client) (HT : List (String × HistoryTypeInfo))
    (today : String) (cs : ChangeSet) (r : ApplyResults) (kv : String × HistorySet) :
    (applyHistorySet cl HT today cs r kv).family_members = r.family_members ∧
    (applyHistorySet cl HT today cs r kv).history_notes =
      r.history_notes ++
        (if histProcessed kv then [(histRouted cl HT today cs kv).1] else []) := by
  unfold applyHistorySet histProcessed histRouted
  by_cases h1 : (kv.2.action == HistoryAction.SKIP) = true
  · simp [h1]
  · rw [Bool.not_eq_true] at h1
    by_cases h2 : kv.2.records.isEmpty = true
    · simp [h1, h2]
    · rw [Bool.not_eq_true] at h2
      simp [h1, h2]

theorem applyHistoryRecords_foldl_spec (cl : Client) (HT : List (String × HistoryTypeInfo))
    (today : String) (cs : ChangeSet) (l : List (String × HistorySet)) :
    ∀ (r : ApplyResults),
      (l.foldl (applyHistorySet cl HT today cs) r).family_members = r.family_members ∧
      (l.foldl (applyHistorySet cl HT today cs) r).history_notes =
        r.history_notes ++
          (l.filter histProcessed).map (fun kv => (histRouted cl HT today cs kv).1) := by
  induction l with
  | nil =>
      intro r
      simp
  | cons kv rest ih =>
      intro r
      simp only [List.foldl_cons, List.filter_cons]
      obtain ⟨ih1, ih2⟩ := ih (applyHistorySet cl HT today cs r kv)
      obtain ⟨hs1, hs2⟩ := applyHistorySet_spec cl HT today cs r kv
      refine ⟨by rw [ih1, hs1], ?_⟩
      rw [ih2, hs2]
      by_cases hp : histProcessed kv = true
      · simp [hp]
      · rw [Bool.not_eq_true] at hp
        simp [hp]

theorem applyHistoryRecords_spec (cl : Client) (HT : List (String × HistoryTypeInfo))
    (today : String) (cs : ChangeSet) (r : ApplyResults) :
    (applyHistoryRecords cl HT today cs r).family_members = r.family_members ∧
    (idTruthy cs.contact_id = true →
      (applyHistoryRecords cl HT today cs r).history_notes.length =
        r.history_notes.length + (cs.history.filter histProcessed).length) := by
  unfold applyHistoryRecords
  by_cases hid : idTruthy cs.contact_id = true
  · simp only [hid, Bool.not_true, Bool.false_eq_true, if_false]
    obtain ⟨h1, h2⟩ := applyHistoryRecords_foldl_spec cl HT today cs cs.history r
    refine ⟨h1, fun _ => ?_⟩
    rw [h2]
    simp
  · rw [Bool.not_eq_true] at hid
    simp only [hid, Bool.not_false, if_true]
    exact ⟨trivial, fun h => by cases h⟩


theorem primaryCreate_preserves (cl : Client) (cs0 : ChangeSet) (r0 : ApplyResults)
    (cu0 : List (String × Option String)) (cs1 : ChangeSet) (r1 : ApplyResults)
    (cu1 : List (String × Option String))
    (h : primaryCreate cl cs0 r0 cu0 = .ok (cs1, r1, cu1)) :
    cs1.family_members = cs0.family_members ∧ cs1.history = cs0.history ∧
    r1.family_members = r0.family_members ∧ r1.history_notes = r0.history_notes ∧
    r1.errors = r0.errors := by
  unfold primaryCreate at h
  simp only [] at h
  split at h
  · split at h
    · cases h
    · split at h
      · cases h
      · cases h
        simp
  · cases h
    simp

theorem primaryUpdate_preserves (cl : Client) (cs1 : ChangeSet) (r1 : ApplyResults)
    (cu : List (String × Option String)) (r2 : ApplyResults)
    (h : primaryUpdate cl cs1 r1 cu = .ok r2) :
    r2.family_members = r1.family_members ∧ r2.history_notes = r1.history_notes ∧
    r2.errors = r1.errors := by
  unfold primaryUpdate at h
  simp only [] at h
  split at h
  · split at h
    · cases h
    · cases h
      simp
  · cases h
    simp

theorem primaryBio_preserves (cl : Client) (cs1 : ChangeSet)
    (bu : List (String × Option String)) (cs2 : ChangeSet)
    (h : primaryBio cl cs1 bu = .ok cs2) :
    cs2.family_members = cs1.family_members ∧ cs2.history = cs1.history := by
  unfold primaryBio at h
  split at h
  · split at h
    · cases h
    · cases h
      simp
  · split at h
    · cases h
    · split at h
      · cases h
        simp
      · cases h
        simp

theorem applyPrimaryChanges_preserves (cl : Client) (cs : ChangeSet) (r0 : ApplyResults)
    (cs1 : ChangeSet) (r1 : ApplyResults)
    (h : applyPrimaryChanges cl cs r0 = .ok (cs1, r1)) :
    cs1.family_members = cs.family_members ∧ cs1.history = cs.history ∧
    r1.family_members = r0.family_members ∧ r1.history_notes = r0.history_notes ∧
    r1.errors = r0.errors := by
  unfold applyPrimaryChanges at h
  simp only [] at h
  split at h
  · cases h
    simp
  · split at h
    · cases h
    · rename_i csA rA cuA hcreate
      split at h
      · cases h
      · rename_i rB hupdate
        obtain ⟨a1, a2, a3, a4, a5⟩ := primaryCreate_preserves cl cs r0 _ csA rA cuA hcreate
        obtain ⟨b1, b2, b3⟩ := primaryUpdate_preserves cl csA rA cuA rB hupdate
        split at h
        · split at h
          · cases h
          · rename_i csC hbio
            obtain ⟨c1, c2⟩ := primaryBio_preserves cl csA _ csC hbio
            cases h
            refine ⟨by rw [c1, a1], by rw [c2, a2], by simpa [b1] using a3,
              by simpa [b2] using a4, by simpa [b3] using a5⟩
        · cases h
          exact ⟨a1, a2, by rw [b1, a3], by rw [b2, a4], by rw [b3, a5]⟩

theorem changeType_ofVal_val (ct : ChangeType) : ChangeType.ofVal ct.val = some ct := by
  cases ct <;> rfl

theorem familyAction_ofVal_val (a : FamilyMemberAction) :
    FamilyMemberAction.ofVal a.val = some a := by
  cases a <;> rfl

theorem historyAction_ofVal_val (a : HistoryAction) : HistoryAction.ofVal a.val = some a := by
  cases a <;> rfl

theorem fieldChange_round_trip (c : FieldChange) :
    FieldChange.from_dict c.to_dict = some c := by
  unfold FieldChange.from_dict FieldChange.to_dict
  rw [changeType_ofVal_val]

theorem mapM_map_some {α β : Type} (g : α → β) (f : β → Option α) (l : List α)
    (h : ∀ a, f (g a) = some a) : (l.map g).mapM f = some l := by
  induction l with
  | nil => rfl
  | cons a t ih =>
      rw [List.map_cons, List.mapM_cons, h, ih]
      rfl

theorem familyMember_round_trip (fm : FamilyMember) :
    FamilyMember.from_dict fm.to_dict = some { fm with search_results := [] } := by
  unfold FamilyMember.from_dict FamilyMember.to_dict
  rw [familyAction_ofVal_val]
  rw [mapM_map_some FieldChange.to_dict FieldChange.from_dict fm.field_changes
    fieldChange_round_trip]

theorem historyRecord_round_trip (r : HistoryRecord) :
    HistoryRecord.from_dict r.to_dict = r := rfl

theorem historySet_round_trip (hs : HistorySet) :
    HistorySet.from_dict hs.to_dict = some hs := by
  unfold HistorySet.from_dict HistorySet.to_dict
  simp only [historyAction_ofVal_val, List.map_map]
  have hmap : (HistoryRecord.from_dict ∘ HistoryRecord.to_dict) = id := by
    funext r
    exact historyRecord_round_trip r
  rw [hmap, List.map_id]

theorem comparePrimaryFields_mem_props
    (norm : Option String → FieldDef → String) (defs : List FieldDef)
    (fields : List (String × FieldData))
    (ec bio : Option (List (String × String))) :
    ∀ c ∈ comparePrimaryFields norm defs fields ec bio,
      (c.change_type = ChangeType.NEW ∨ c.change_type = ChangeType.MODIFIED ∨
        c.change_type = ChangeType.UNCHANGED) ∧
      c.approved = decide (c.change_type ≠ ChangeType.UNCHANGED) ∧
      (∃ v, c.new_value = some v ∧ v ≠ "") := by
  induction defs with
  | nil =>
      intro c hc
      simp [comparePrimaryFields] at hc
  | cons fd rest ih =>
      intro c hc
      rw [comparePrimaryFields] at hc
      rcases List.mem_append.mp hc with hc | hc
      · by_cases hv : optStrTruthy ((alookup fd.key fields).getD {}).value = true
        · rw [if_neg (by simp [hv])] at hc
          simp only [List.mem_singleton] at hc
          subst hc
          set cv : Option String :=
            (if optStrTruthy fd.infotems_field then
              (if fd.biographic && dictTruthy bio then
                alookup (fd.infotems_field.getD "") (bio.getD [])
              else if dictTruthy ec then alookup (fd.infotems_field.getD "") (ec.getD [])
              else none)
            else none) with hcv
          constructor
          · by_cases h1 : optStrTruthy cv = true
            · by_cases h2 : norm cv fd ≠ norm ((alookup fd.key fields).getD {}).value fd
              · right; left
                simp [h1, h2]
              · right; right
                simp [h1, h2]
            · left
              simp [h1]
          · constructor
            · rfl
            · refine ⟨(((alookup fd.key fields).getD {}).value).getD "", ?_, ?_⟩
              · rw [if_pos hv]
                cases hx : ((alookup fd.key fields).getD {}).value with
                | some s => rfl
                | none => rw [hx] at hv; simp [optStrTruthy] at hv
              · cases hx : ((alookup fd.key fields).getD {}).value with
                | some s =>
                    rw [hx] at hv
                    simpa [optStrTruthy] using hv
                | none => rw [hx] at hv; simp [optStrTruthy] at hv
        · rw [Bool.not_eq_true] at hv
          rw [if_pos (by simp [hv])] at hc
          simp at hc
      · exact ih c hc

theorem comparePrimaryFields_length
    (norm : Option String → FieldDef → String) (defs : List FieldDef)
    (fields : List (String × FieldData))
    (ec bio : Option (List (String × String))) :
    (comparePrimaryFields norm defs fields ec bio).length =
      (defs.filter (fun fd =>
        optStrTruthy ((alookup fd.key fields).getD {}).value)).length := by
  induction defs with
  | nil => rfl
  | cons fd rest ih =>
      rw [comparePrimaryFields, List.filter_cons]
      split
      · rename_i hx
        have hX : ¬ optStrTruthy ((alookup fd.key fields).getD {}).value = true := by
          simpa using hx
        rw [if_neg hX]
        simpa using ih
      · rename_i hx
        have hX : optStrTruthy ((alookup fd.key fields).getD {}).value = true := by
          simpa using hx
        simp only [hX]
        simp [ih]

theorem allFieldKeys_nil : ∀ (l : List Extraction), (∀ r ∈ l, r.fields = []) →
    allFieldKeys l = [] := by
  intro l
  unfold allFieldKeys
  induction l with
  | nil => intro _; rfl
  | cons r rest ih =>
      intro h
      simp only [List.foldl_cons]
      rw [h r (List.mem_cons_self r rest)]
      exact ih (fun x hx => h x (List.mem_cons_of_mem r hx))

theorem consensusFamily_nil : ∀ (l : List Extraction), (∀ r ∈ l, r.family_members = []) →
    consensusFamily l = [] := by
  intro l h
  unfold consensusFamily
  suffices hgen : ∀ (acc : List FamilyDict × List (String × String × String)),
      (l.foldl (fun acc r => r.family_members.foldl (fun acc fm =>
        let k := (fm.relationship.getD "", lookupS fm.data "first_name",
          lookupS fm.data "last_name")
        if acc.2.contains k then acc else (acc.1 ++ [fm], acc.2 ++ [k])) acc) acc) = acc by
    rw [hgen ([], [])]
  induction l with
  | nil => intro acc; rfl
  | cons r rest ih =>
      intro acc
      simp only [List.foldl_cons]
      rw [h r (List.mem_cons_self r rest)]
      exact ih (fun x hx => h x (List.mem_cons_of_mem r hx)) acc

theorem consensusHistory_nil : ∀ (l : List Extraction), (∀ r ∈ l, r.history = []) →
    consensusHistory l = [] := by
  intro l h
  unfold consensusHistory
  suffices hgen : ∀ (acc : List (String × List HistEntry)),
      (l.foldl (fun acc r => r.history.foldl (fun acc kv =>
        match alookup kv.1 acc with
        | some existing => dictInsert kv.1 (existing ++ kv.2) acc
        | none => acc ++ [(kv.1, kv.2)]) acc) acc) = acc by
    rw [hgen []]
  induction l with
  | nil => intro acc; rfl
  | cons r rest ih =>
      intro acc
      simp only [List.foldl_cons]
      rw [h r (List.mem_cons_self r rest)]
      exact ih (fun x hx => h x (List.mem_cons_of_mem r hx)) acc


/-! ## Claim theorems -/

/-- C3: for every FieldChange, has_change holds iff its classification is
NEW or MODIFIED, and every FieldChange the diff engine
(`_compare_primary_fields`) constructs has its default approval flag equal
to has_change; in particular one classified UNCHANGED has approval false. -/
theorem has_change_iff_new_or_modified_and_default_approval :
    (∀ c : FieldChange, c.has_change = true ↔
      (c.change_type = ChangeType.NEW ∨ c.change_type = ChangeType.MODIFIED)) ∧
    (∀ (norm : Option String → FieldDef → String) (defs : List FieldDef)
      (fields : List (String × FieldData)) (ec bio : Option (List (String × String)))
      (c : FieldChange), c ∈ comparePrimaryFields norm defs fields ec bio →
        c.approved = c.has_change ∧
        (c.change_type = ChangeType.UNCHANGED → c.approved = false)) := by
  constructor
  · intro c
    cases hc : c.change_type <;> simp [FieldChange.has_change, hc]
  · intro norm defs fields ec bio c hc
    obtain ⟨h3way, happr, _⟩ := comparePrimaryFields_mem_props norm defs fields ec bio c hc
    constructor
    · rw [happr]
      rcases h3way with h | h | h <;> simp [FieldChange.has_change, h]
    · intro hu
      rw [happr, hu]
      simp

/-- Witness for C3, applying the theorem to the one FieldChange produced
by a concrete diff-engine run. -/
theorem has_change_default_approval_witness :
    (c3Produced.has_change = true ↔
      (c3Produced.change_type = ChangeType.NEW ∨
        c3Produced.change_type = ChangeType.MODIFIED)) ∧
    (c3Produced.approved = c3Produced.has_change ∧
      (c3Produced.change_type = ChangeType.UNCHANGED → c3Produced.approved = false)) :=
  ⟨has_change_iff_new_or_modified_and_default_approval.1 c3Produced,
   has_change_iff_new_or_modified_and_default_approval.2 normTrivial c3Defs c3Fields
     none none c3Produced (by decide)⟩

/-- C4: final_value equals the human override when present, else the
proposed value, and it can only coincide with the current value when the
proposed or edited value does. -/
theorem final_value_override_else_proposed (c : FieldChange) :
    c.final_value = (match c.edited_value with
      | some e => some e
      | none => c.new_value) ∧
    (c.final_value = c.current_value →
      c.new_value = c.current_value ∨ c.edited_value = c.current_value) := by
  refine ⟨rfl, ?_⟩
  intro h
  unfold FieldChange.final_value at h
  cases he : c.edited_value with
  | some e =>
      right
      rw [he] at h
      exact h
  | none =>
      left
      rw [he] at h
      exact h

/-- Witness for C4 at a concrete UNCHANGED change whose proposed value
coincides with the current one. -/
theorem final_value_override_else_proposed_witness :
    c4Fc.final_value = (match c4Fc.edited_value with
      | some e => some e
      | none => c4Fc.new_value) ∧
    (c4Fc.final_value = c4Fc.current_value →
      c4Fc.new_value = c4Fc.current_value ∨ c4Fc.edited_value = c4Fc.current_value) :=
  final_value_override_else_proposed c4Fc

/-- C6: the confidence-gated retry merge is monotone — for every field key
the stored confidence (as the merge reads it, defaulting to 0) never
decreases, and the stored entry changes only when the re-extracted
confidence is strictly greater. -/
theorem retry_merge_confidence_monotone
    (old retried : List (String × FieldData)) (key : String) :
    readConf old key ≤ readConf (reextractMerge old retried) key ∧
    (alookup key (reextractMerge old retried) ≠ alookup key old →
      readConf old key < readConf (reextractMerge old retried) key) := by
  unfold reextractMerge
  exact reextractMergeGo_props retried old key

/-- Witness for C6: a merge whose new candidate has lower confidence
leaves the stored field untouched. -/
theorem retry_merge_confidence_monotone_witness :
    (readConf c6Old "a_number" ≤ readConf (reextractMerge c6Old c6Retried) "a_number" ∧
      (alookup "a_number" (reextractMerge c6Old c6Retried) ≠ alookup "a_number" c6Old →
        readConf c6Old "a_number" < readConf (reextractMerge c6Old c6Retried) "a_number")) ∧
    reextractMerge c6Old c6Retried = c6Old :=
  ⟨retry_merge_confidence_monotone c6Old c6Retried "a_number", by decide⟩

/-- C10: the diff engine never produces a REMOVED classification — every
FieldChange it appends carries a non-empty proposed value and a
classification among NEW, MODIFIED and UNCHANGED, and a schema field whose
extracted value is absent or empty yields no FieldChange at all (exactly
the truthy-valued definitions yield one change each). -/
theorem diff_engine_never_removed
    (norm : Option String → FieldDef → String) (defs : List FieldDef)
    (fields : List (String × FieldData)) (ec bio : Option (List (String × String))) :
    (∀ c ∈ comparePrimaryFields norm defs fields ec bio,
      c.change_type ≠ ChangeType.REMOVED ∧
      (c.change_type = ChangeType.NEW ∨ c.change_type = ChangeType.MODIFIED ∨
        c.change_type = ChangeType.UNCHANGED) ∧
      (∃ v, c.new_value = some v ∧ v ≠ "")) ∧
    (comparePrimaryFields norm defs fields ec bio).length =
      (defs.filter (fun fd =>
        optStrTruthy ((alookup fd.key fields).getD {}).value)).length := by
  constructor
  · intro c hc
    obtain ⟨h3way, _, hval⟩ := comparePrimaryFields_mem_props norm defs fields ec bio c hc
    refine ⟨?_, h3way, hval⟩
    rcases h3way with h | h | h <;> simp [h]
  · exact comparePrimaryFields_length norm defs fields ec bio

/-- Witness for C10 at a concrete run: the extracted field yields one NEW
change with a non-empty value, the absent field yields none. -/
theorem diff_engine_never_removed_witness :
    (c10Produced.change_type ≠ ChangeType.REMOVED ∧
      (c10Produced.change_type = ChangeType.NEW ∨
        c10Produced.change_type = ChangeType.MODIFIED ∨
        c10Produced.change_type = ChangeType.UNCHANGED) ∧
      (∃ v, c10Produced.new_value = some v ∧ v ≠ "")) ∧
    (comparePrimaryFields normTrivial c10Defs c10Fields none none).length =
      (c10Defs.filter (fun fd =>
        optStrTruthy ((alookup fd.key c10Fields).getD {}).value)).length :=
  ⟨(diff_engine_never_removed normTrivial c10Defs c10Fields none none).1 c10Produced
    (by decide),
   (diff_engine_never_removed normTrivial c10Defs c10Fields none none).2⟩

/-- C2 counterexample: with one input candidate and a verification reply
listing two verified members, the returned list has two candidates — more
than the input list — so the returned list can exceed the input. -/
theorem verify_family_members_can_exceed_input :
    (verify_family_members [c2Input] c2Reply).length = 2 ∧
    ([c2Input] : List FamilyDict).length = 1 ∧
    ¬ (verify_family_members [c2Input] c2Reply).length ≤ ([c2Input] : List FamilyDict).length := by
  refine ⟨by decide, rfl, by decide⟩

/-- C2 as amended: family verification is confirm-or-drop relative to the
verification reply — every reply candidate marked unverified is removed
outright, every returned candidate is an unrefuted reply candidate with
non-empty data, and the returned list never exceeds the reply's candidate
list (it can exceed the input list when the reply lists more members). -/
theorem verify_family_members_confirm_or_drop
    (input : List FamilyDict) (reply : Extraction) :
    (∀ fm ∈ reply.family_members, fm.verified = some false →
      fm ∉ verify_family_members input reply) ∧
    (∀ fm ∈ verify_family_members input reply,
      fm.verified ≠ some false ∧ fm.data ≠ [] ∧ fm ∈ reply.family_members) ∧
    (verify_family_members input reply).length ≤ reply.family_members.length := by
  unfold verify_family_members
  by_cases hin : input.isEmpty
  · rw [if_pos hin]
    refine ⟨fun fm _ hv hmem => by simp at hmem, fun fm hmem => by simp at hmem, by simp⟩
  · rw [if_neg hin]
    refine ⟨?_, ?_, List.length_filter_le _ _⟩
    · intro fm _ hv hmem
      have := List.of_mem_filter hmem
      rw [hv] at this
      simp at this
    · intro fm hmem
      have hp := List.of_mem_filter hmem
      have hm := List.mem_of_mem_filter hmem
      refine ⟨?_, ?_, hm⟩
      · intro hv
        rw [hv] at hp
        simp at hp
      · intro hd
        rw [hd] at hp
        simp at hp

/-- Witness for C2 as amended: a reply member marked unverified is dropped
while the verified one is kept. -/
theorem verify_family_members_confirm_or_drop_witness :
    ((∀ fm ∈ c2WitReply.family_members, fm.verified = some false →
        fm ∉ verify_family_members [c2Input] c2WitReply) ∧
      (∀ fm ∈ verify_family_members [c2Input] c2WitReply,
        fm.verified ≠ some false ∧ fm.data ≠ [] ∧ fm ∈ c2WitReply.family_members) ∧
      (verify_family_members [c2Input] c2WitReply).length ≤
        c2WitReply.family_members.length) ∧
    c2WitBad ∉ verify_family_members [c2Input] c2WitReply :=
  ⟨verify_family_members_confirm_or_drop [c2Input] c2WitReply,
   (verify_family_members_confirm_or_drop [c2Input] c2WitReply).1 c2WitBad (by decide)
     (by decide)⟩

/-- C7 counterexample: the stripped value A12345678 is not a string of 8-9
digits (it starts with a letter), yet the validator emits an INFO issue for
it, not a BLOCKING one — the pattern accepts an optional A prefix. -/
theorem validate_a_number_accepts_letter_prefixed_value :
    stripANumber "A12345678" = "A12345678" ∧
    ("A12345678".toList.all isDigitChar) = false ∧
    validate_a_number c7Fields ≠ [] ∧
    (validate_a_number c7Fields).all (fun i => i.severity == ValidationSeverity.INFO) = true := by
  refine ⟨by decide, by decide, by decide, by decide⟩

/-- C7 as amended: after stripping, a value that does not consist of 8-9
digits optionally preceded by the letter A (case-insensitive) yields
exactly one BLOCKING (ERROR) issue; a value whose digit group has exactly
8 digits yields exactly one INFORMATIONAL issue whose suggestion is the
letter A followed by the zero-padded 9-digit group; a 9-digit group yields
no issue at all. -/
theorem validate_a_number_characterization
    (fields : List (String × FieldData)) (fd : FieldData) (v : String)
    (h1 : alookup "a_number" fields = some fd) (h2 : fd.value = some v) (h3 : v ≠ "") :
    (matchANumber (stripANumber v) = none →
      validate_a_number fields =
        [{ rule_name := "invalid_a_number"
           severity := .ERROR
           message := "Invalid A-number format: \x27" ++ stripANumber v ++
             "\x27. Expected 8-9 digits."
           field_key := some "a_number"
           current_value := some (stripANumber v) }]) ∧
    (∀ d, matchANumber (stripANumber v) = some d →
      (d.toList.all isDigitChar) = true ∧ (d.length = 8 ∨ d.length = 9)) ∧
    (∀ d, matchANumber (stripANumber v) = some d → d.length = 8 →
      validate_a_number fields =
        [{ rule_name := "a_number_format"
           severity := .INFO
           message := "A-number has 8 digits, may need leading zero"
           field_key := some "a_number"
           current_value := some (stripANumber v)
           suggested_value := some ("A" ++ zfill 9 d) }]) ∧
    (∀ d, matchANumber (stripANumber v) = some d → d.length = 9 →
      validate_a_number fields = []) := by
  have hv : validate_a_number fields =
      (match matchANumber (stripANumber v) with
       | none =>
           [{ rule_name := "invalid_a_number"
              severity := .ERROR
              message := "Invalid A-number format: \x27" ++ stripANumber v ++
                "\x27. Expected 8-9 digits."
              field_key := some "a_number"
              current_value := some (stripANumber v) }]
       | some digits =>
           if digits.length = 8 then
             [{ rule_name := "a_number_format"
                severity := .INFO
                message := "A-number has 8 digits, may need leading zero"
                field_key := some "a_number"
                current_value := some (stripANumber v)
                suggested_value := some ("A" ++ zfill 9 digits) }]
           else []) := by
    unfold validate_a_number
    simp only [h1, h2]
    rw [if_neg h3]
  refine ⟨?_, ?_, ?_, ?_⟩
  · intro hm
    rw [hv, hm]
  · intro d hm
    unfold matchANumber at hm
    simp only [] at hm
    split at hm
    · rename_i hcond
      rw [Bool.and_eq_true] at hcond
      obtain ⟨hA, hB⟩ := hcond
      injection hm with hd
      subst hd
      refine ⟨by simpa using hA, ?_⟩
      have hlen := hB
      simp only [Bool.or_eq_true, decide_eq_true_eq] at hlen
      exact hlen
    · cases hm
  · intro d hm h8
    rw [hv, hm]
    simp [h8]
  · intro d hm h9
    rw [hv, hm]
    have h8 : ¬ d.length = 8 := by omega
    simp [h8]

/-- Witness for C7: an 8-digit value yields exactly the INFO issue with
the zero-padded suggestion A012345678, and a 9-digit one yields nothing. -/
theorem validate_a_number_characterization_witness :
    validate_a_number c7WitFields =
      [{ rule_name := "a_number_format"
         severity := .INFO
         message := "A-number has 8 digits, may need leading zero"
         field_key := some "a_number"
         current_value := some (stripANumber "12345678")
         suggested_value := some ("A" ++ zfill 9 "12345678") }] :=
  (validate_a_number_characterization c7WitFields
    { value := some "12345678" } "12345678" (by decide) rfl (by decide)).2.2.1
    "12345678" (by decide) (by decide)

/-- C8: the note formatter sorts with reverse=True over the key
(not is_current, from_date), which puts PREVIOUS records ahead of the
CURRENT one — the code contradicts its own comment (line 1395, Sort:
current first, then by date descending) and the spec. Evaluated at a set
holding one current (2020) and one previous (2010) record, the sorted
order is previous-first. -/
theorem format_history_note_orders_previous_first :
    pySortedDesc c8HistSet.records = [c8Previous, c8Current] ∧
    c8Current.is_current = true ∧ c8Previous.is_current = false ∧
    c8HistSet.records = [c8Current, c8Previous] := by
  refine ⟨by decide, rfl, rfl, rfl⟩

theorem mapM_map_eq_map {α β γ : Type} (g : α → β) (f : β → Option γ) (h : α → γ)
    (l : List α) (hfg : ∀ a, f (g a) = some (h a)) : (l.map g).mapM f = some (l.map h) := by
  induction l with
  | nil => rfl
  | cons a t ih =>
      rw [List.map_cons, List.mapM_cons, hfg, ih]
      rfl

/-- C9: serializing a ChangeSet and deserializing it back succeeds and
reproduces the ChangeSet exactly, except that the serialization omits the
search_results scratch lists of the family members (which restart empty);
in particular every FieldChange — in the primary change list and inside
every family member — keeps all its field values, its classification and
its approval flag. -/
theorem changeset_serialization_round_trip (cs : ChangeSet) :
    ChangeSet.from_dict cs.to_dict =
      some { cs with family_members :=
        cs.family_members.map (fun fm => { fm with search_results := [] }) } ∧
    (∀ cs' : ChangeSet, ChangeSet.from_dict cs.to_dict = some cs' →
      cs'.changes = cs.changes ∧
      cs'.family_members.map (fun fm => fm.field_changes) =
        cs.family_members.map (fun fm => fm.field_changes) ∧
      cs'.history = cs.history) := by
  have hmain : ChangeSet.from_dict cs.to_dict =
      some { cs with family_members :=
        cs.family_members.map (fun fm => { fm with search_results := [] }) } := by
    unfold ChangeSet.from_dict ChangeSet.to_dict
    rw [mapM_map_some FieldChange.to_dict FieldChange.from_dict cs.changes
      fieldChange_round_trip]
    rw [mapM_map_eq_map FamilyMember.to_dict FamilyMember.from_dict
      (fun fm => { fm with search_results := [] }) cs.family_members
      (fun fm => familyMember_round_trip fm)]
    have hh : (cs.history.map (fun kv => (kv.1, kv.2.to_dict))).mapM
        (fun kv => match HistorySet.from_dict kv.2 with
          | some hs => some (kv.1, hs)
          | none => none) = some cs.history := by
      apply mapM_map_some (fun kv => (kv.1, kv.2.to_dict))
        (fun kv => match HistorySet.from_dict kv.2 with
          | some hs => some (kv.1, hs)
          | none => none) cs.history
      intro kv
      simp only [historySet_round_trip]
    rw [hh]
  refine ⟨hmain, ?_⟩
  intro cs' h
  rw [hmain] at h
  injection h with h
  subst h
  refine ⟨rfl, ?_, rfl⟩
  rw [List.map_map]
  rfl

/-- C1 counterexample: with no matched contact, one approved change and no
name fields, the primary phase raises; the exception is recorded as a bare
message and the family phase never runs — the SKIP family member (a
guaranteed success) is absent from the per-entity results, so a primary
failure does abort the other phases. -/
theorem apply_changes_primary_failure_skips_family_phase :
    (apply_changes clientOK [] "01/15/2026" c1ChangeSet).family_members = [] ∧
    (apply_changes clientOK [] "01/15/2026" c1ChangeSet).history_notes = [] ∧
    (apply_changes clientOK [] "01/15/2026" c1ChangeSet).errors =
      ["Cannot create contact without First and Last name"] ∧
    (apply_changes clientOK [] "01/15/2026" c1ChangeSet).success = false ∧
    c1ChangeSet.family_members.length = 1 := by
  refine ⟨by decide, by decide, by decide, by decide, rfl⟩

/-- C1 as amended: once the primary phase returns without raising, the
family and history phases are isolated per entity — every family member
yields exactly one result entry (a member failure never aborts its
siblings or the history phase), and every processed history set yields
exactly one entry. -/
theorem apply_changes_per_entity_isolation (cl : Client)
    (HT : List (String × HistoryTypeInfo)) (today : String) (cs : ChangeSet)
    (cs1 : ChangeSet) (r1 : ApplyResults)
    (h : applyPrimaryChanges cl cs (initApplyResults cs) = .ok (cs1, r1)) :
    (apply_changes cl HT today cs).family_members.length = cs.family_members.length ∧
    (idTruthy cs1.contact_id = true →
      (apply_changes cl HT today cs).history_notes.length =
        (cs.history.filter histProcessed).length) := by
  obtain ⟨p1, p2, p3, p4, p5⟩ := applyPrimaryChanges_preserves cl cs (initApplyResults cs)
    cs1 r1 h
  have happly : apply_changes cl HT today cs =
      { applyHistoryRecords cl HT today cs1 (applyFamilyChanges cl cs1 r1) with
          success := true } := by
    unfold apply_changes
    simp only []
    rw [h]
  obtain ⟨f1, f2⟩ := applyFamilyChanges_spec cl cs1 r1
  obtain ⟨h1, h2⟩ := applyHistoryRecords_spec cl HT today cs1 (applyFamilyChanges cl cs1 r1)
  constructor
  · rw [happly]
    show (applyHistoryRecords cl HT today cs1 (applyFamilyChanges cl cs1 r1)).family_members.length =
      cs.family_members.length
    rw [h1, f1, p3, p1]
    simp [initApplyResults]
  · intro hid
    rw [happly]
    show (applyHistoryRecords cl HT today cs1 (applyFamilyChanges cl cs1 r1)).history_notes.length =
      (cs.history.filter histProcessed).length
    rw [h2 hid, f2, p4, p2]
    simp [initApplyResults]

/-- Witness for C1 as amended at a concrete run whose first family member
fails and second succeeds: both members still yield result entries and the
history set is still processed. -/
theorem apply_changes_per_entity_isolation_witness :
    ((apply_changes c1WitClient [] "01/15/2026" c1WitChangeSet).family_members.length =
        c1WitChangeSet.family_members.length ∧
      (idTruthy c1WitChangeSet.contact_id = true →
        (apply_changes c1WitClient [] "01/15/2026" c1WitChangeSet).history_notes.length =
          (c1WitChangeSet.history.filter histProcessed).length)) ∧
    c1WitChangeSet.family_members.length = 2 ∧
    (c1WitChangeSet.history.filter histProcessed).length = 1 ∧
    (applyFamilyMember c1WitClient c1WitChangeSet c1WitFmA).1.success = false :=
  ⟨apply_changes_per_entity_isolation c1WitClient [] "01/15/2026" c1WitChangeSet
      c1WitChangeSet (initApplyResults c1WitChangeSet) rfl,
   rfl, by decide, by decide⟩

/-- C5 counterexample: the sole candidate for key x reports confidence 0 —
the highest across strategies — yet the consensus omits the key entirely,
because the scan starts from best_confidence 0 and replaces only on
strictly greater confidence. -/
theorem find_consensus_drops_zero_confidence_candidate :
    fieldCands [c5R1, c5R2] "x" = [{ value := some "v", confidence := some 0 }] ∧
    alookup "x" (find_consensus [c5R1, c5R2]).fields = none := by
  refine ⟨by decide, by decide⟩

/-- C5 as amended: for two or more strategy results, the consensus entry of
a field key is a candidate achieving the maximum reported confidence
(missing confidences default to 0.5), that maximum is strictly positive,
every earlier candidate is strictly below it (ties go to the first strategy
seen) and every later one is at most it; a key whose candidates all have
non-positive confidence is omitted; the overall confidence is the
arithmetic mean of the per-strategy confidences; and if every strategy
reply is unparseable the consensus is empty with confidence 0. -/
theorem find_consensus_spec (l : List Extraction) (h2 : 2 ≤ l.length) :
    (∀ key fd, alookup key (find_consensus l).fields = some fd →
      0 < fd.confidence.getD (1/2) ∧
      ∃ pre post, fieldCands l key = pre ++ fd :: post ∧
        (∀ x ∈ pre, x.confidence.getD (1/2) < fd.confidence.getD (1/2)) ∧
        (∀ x ∈ post, x.confidence.getD (1/2) ≤ fd.confidence.getD (1/2))) ∧
    (∀ key, alookup key (find_consensus l).fields = none →
      ∀ x ∈ fieldCands l key, x.confidence.getD (1/2) ≤ 0) ∧
    (find_consensus l).confidence = (l.map (fun r => r.confidence)).sum / l.length ∧
    ((∀ r ∈ l, ∃ raw, r = parse_extraction_response none raw) →
      (find_consensus l).fields = [] ∧ (find_consensus l).family_members = [] ∧
      (find_consensus l).history = [] ∧ (find_consensus l).confidence = 0) := by
  obtain ⟨a, b, rest, hl⟩ : ∃ a b rest, l = a :: b :: rest := by
    cases l with
    | nil => simp at h2
    | cons a t =>
        cases t with
        | nil => simp at h2
        | cons b rest => exact ⟨a, b, rest, rfl⟩
  subst hl
  have hfc : find_consensus (a :: b :: rest) =
      { confidence := ((a :: b :: rest).map (fun r => r.confidence)).sum /
          (a :: b :: rest).length
        fields := consensusFields (a :: b :: rest)
        family_members := consensusFamily (a :: b :: rest)
        history := consensusHistory (a :: b :: rest) } := rfl
  refine ⟨?_, ?_, ?_, ?_⟩
  · intro key fd h
    rw [hfc] at h
    simp only at h
    rw [alookup_consensusFields] at h
    unfold consensusBest at h
    rcases bestGo_eq_some (fieldCands (a :: b :: rest) key) none 0 fd h with
      ⟨pre, post, hsplit, hgt, hpre, hpost⟩ | ⟨habs, _⟩
    · exact ⟨hgt, pre, post, hsplit, hpre, hpost⟩
    · cases habs
  · intro key h
    rw [hfc] at h
    simp only at h
    rw [alookup_consensusFields] at h
    unfold consensusBest at h
    exact (bestGo_eq_none (fieldCands (a :: b :: rest) key) none 0 h).2
  · rw [hfc]
  · intro hall
    have hfacts : ∀ r ∈ (a :: b :: rest), r.fields = [] ∧ r.family_members = [] ∧
        r.history = [] ∧ r.confidence = 0 := by
      intro r hr
      obtain ⟨raw, hraw⟩ := hall r hr
      subst hraw
      exact ⟨rfl, rfl, rfl, rfl⟩
    rw [hfc]
    refine ⟨?_, ?_, ?_, ?_⟩
    · show consensusFields (a :: b :: rest) = []
      unfold consensusFields
      rw [allFieldKeys_nil (a :: b :: rest) (fun r hr => (hfacts r hr).1)]
      rfl
    · exact consensusFamily_nil (a :: b :: rest) (fun r hr => (hfacts r hr).2.1)
    · exact consensusHistory_nil (a :: b :: rest) (fun r hr => (hfacts r hr).2.2.1)
    · show ((a :: b :: rest).map (fun r => r.confidence)).sum /
          ((a :: b :: rest).length : ℚ) = 0
      have hsum : ((a :: b :: rest).map (fun r => r.confidence)).sum = 0 := by
        apply List.sum_eq_zero
        intro x hx
        obtain ⟨r, hr, hxr⟩ := List.mem_map.mp hx
        rw [← hxr]
        exact (hfacts r hr).2.2.2
      rw [hsum, zero_div]

/-- Witness for C5 as amended at two concrete strategy results, where the
higher-confidence candidate wins the key. -/
theorem find_consensus_spec_witness :
    ((∀ key fd, alookup key (find_consensus [c5W1, c5W2]).fields = some fd →
        0 < fd.confidence.getD (1/2) ∧
        ∃ pre post, fieldCands [c5W1, c5W2] key = pre ++ fd :: post ∧
          (∀ x ∈ pre, x.confidence.getD (1/2) < fd.confidence.getD (1/2)) ∧
          (∀ x ∈ post, x.confidence.getD (1/2) ≤ fd.confidence.getD (1/2))) ∧
      (∀ key, alookup key (find_consensus [c5W1, c5W2]).fields = none →
        ∀ x ∈ fieldCands [c5W1, c5W2] key, x.confidence.getD (1/2) ≤ 0) ∧
      (find_consensus [c5W1, c5W2]).confidence =
        ([c5W1, c5W2].map (fun r => r.confidence)).sum / ([c5W1, c5W2] : List Extraction).length ∧
      ((∀ r ∈ ([c5W1, c5W2] : List Extraction), ∃ raw, r = parse_extraction_response none raw) →
        (find_consensus [c5W1, c5W2]).fields = [] ∧
        (find_consensus [c5W1, c5W2]).family_members = [] ∧
        (find_consensus [c5W1, c5W2]).history = [] ∧
        (find_consensus [c5W1, c5W2]).confidence = 0)) ∧
    alookup "first_name" (find_consensus [c5W1, c5W2]).fields =
      some { value := some "Maria", confidence := some 1 } :=
  ⟨find_consensus_spec [c5W1, c5W2] (by decide), by decide⟩

/-- Witness for C9, applying the round trip at the default-initialized
ChangeSet. -/
theorem changeset_serialization_round_trip_witness :
    ChangeSet.from_dict ({} : ChangeSet).to_dict =
      some { ({} : ChangeSet) with family_members :=
        ({} : ChangeSet).family_members.map (fun fm => { fm with search_results := [] }) } :=
  (changeset_serialization_round_trip {}).1
